import Mathlib

/-!
Shallow embedding of the LexInvo invoice-canonicalization core
(`lexinvo.utils.normalize`, `lexinvo.core.models`, `lexinvo.core.btstore`,
`lexinvo.core.loader`, `lexinvo.core.rules_engine`, `lexinvo.core.pipeline`)
together with theorems settling the frozen claims about it.

Modelling conventions:
* Python numbers (`int`/`float`) are idealised as exact rationals `ℚ`;
  `round(x, 2)` and `f-string .2f` formatting use round-half-to-even on the
  exact rational value.
* Python strings are Lean `String`s; `.lower()`/`.upper()` are modelled on the
  ASCII range, which is observationally equivalent for every pattern the code
  searches for (all patterns are ASCII).
* Python dictionaries are association lists in insertion order; `dict.get`
  returns the first binding.
* Mutation of the invoice is modelled by explicit state passing: `apply_patch`
  returns the updated invoice.
* `datetime.utcnow().date()` is an explicit `today` parameter of the phase
  that reads the clock.
-/

set_option allowUnsafeReducibility true
attribute [local semireducible] Rat.mul Rat.add Rat.sub Rat.div Rat.neg Rat.inv
  Rat.ofScientific Rat.normalize Rat.floor Rat.ceil

namespace LexInvo

/-- Scalar value as stored in a field record: Python `None`, a string, or a
number (Python `int`/`float` idealised as an exact rational). -/
inductive PyVal where
  | none
  | str (s : String)
  | num (q : ℚ)
deriving DecidableEq

/-- Python truthiness `bool(value)` of a stored value. -/
def PyVal.truthy : PyVal → Bool
  | .none => false
  | .str s => s ≠ ""
  | .num q => q ≠ 0

/-- Python membership test `value not in (None, "")` used by the loader. -/
def PyVal.notNoneOrEmpty : PyVal → Bool
  | .none => false
  | .str s => s ≠ ""
  | .num _ => true

/-! String helpers mirroring the Python string operations used by the code. -/

/-- Characters treated as whitespace by Python `str.strip()` / `str.split()`. -/
def isPySpace (c : Char) : Bool :=
  c = ' ' || c = '\t' || c = '\n' || c = '\r' || c = '\x0b' || c = '\x0c'

def dropLeadingSpace : List Char → List Char
  | [] => []
  | c :: cs => if isPySpace c then dropLeadingSpace cs else c :: cs

/-- Python `str.strip()`. -/
def pyStrip (s : String) : String :=
  String.mk ((dropLeadingSpace ((dropLeadingSpace s.toList).reverse)).reverse)

/-- ASCII lower-casing of one character (Python `str.lower()` restricted to
the ASCII range; every pattern the code compares against is ASCII). -/
def lowerChar (c : Char) : Char :=
  if 'A' ≤ c ∧ c ≤ 'Z' then Char.ofNat (c.toNat + 32) else c

def upperChar (c : Char) : Char :=
  if 'a' ≤ c ∧ c ≤ 'z' then Char.ofNat (c.toNat - 32) else c

def pyLower (s : String) : String := String.mk (s.toList.map lowerChar)

def pyUpper (s : String) : String := String.mk (s.toList.map upperChar)

/-- Substring containment on character lists (Python `needle in hay`). -/
def containsSubList (needle : List Char) : List Char → Bool
  | [] => needle.isEmpty
  | c :: cs => needle.isPrefixOf (c :: cs) || containsSubList needle cs

/-- Python substring test `needle in hay`. -/
def containsSub (hay needle : String) : Bool :=
  containsSubList needle.toList hay.toList

def splitOnCharAux (sep : Char) : List Char → List Char → List String
  | [], acc => [String.mk acc.reverse]
  | c :: cs, acc =>
    if c = sep then String.mk acc.reverse :: splitOnCharAux sep cs []
    else splitOnCharAux sep cs (c :: acc)

/-- Python `s.split(sep)` for a one-character separator. -/
def splitOnChar (sep : Char) (s : String) : List String :=
  splitOnCharAux sep s.toList []

def wsSplitAux : List Char → List Char → List String
  | [], acc => if acc.isEmpty then [] else [String.mk acc.reverse]
  | c :: cs, acc =>
    if isPySpace c then
      if acc.isEmpty then wsSplitAux cs [] else String.mk acc.reverse :: wsSplitAux cs []
    else wsSplitAux cs (c :: acc)

/-- Python `s.split()` (split on whitespace runs, no empty tokens). -/
def pySplitWs (s : String) : List String := wsSplitAux s.toList []

def splitLinesAux : List Char → List Char → List String
  | [], acc => if acc.isEmpty then [] else [String.mk acc.reverse]
  | '\r' :: '\n' :: cs, acc => String.mk acc.reverse :: splitLinesAux cs []
  | '\r' :: cs, acc => String.mk acc.reverse :: splitLinesAux cs []
  | '\n' :: cs, acc => String.mk acc.reverse :: splitLinesAux cs []
  | c :: cs, acc => splitLinesAux cs (c :: acc)

/-- Python `s.splitlines()` (for the line terminators occurring here). -/
def pySplitLines (s : String) : List String := splitLinesAux s.toList []

def replaceListAux (old new : List Char) : ℕ → List Char → List Char
  | 0, l => l
  | _ + 1, [] => []
  | fuel + 1, c :: cs =>
    if old ≠ [] ∧ old.isPrefixOf (c :: cs) then
      new ++ replaceListAux old new fuel ((c :: cs).drop old.length)
    else c :: replaceListAux old new fuel cs

/-- Python `s.replace(old, new)` (all non-overlapping occurrences, left to
right; the fuel equals the text length, which every step consumes). -/
def pyReplace (s old new : String) : String :=
  String.mk (replaceListAux old.toList new.toList s.toList.length s.toList)

/-- Index of the last occurrence of `c` in `s` (Python `s.rfind(c)`, `-1` if
absent). -/
def lastIdxAux (c : Char) : List Char → ℤ → ℤ → ℤ
  | [], _, best => best
  | x :: xs, i, best => lastIdxAux c xs (i + 1) (if x = c then i else best)

def lastIdx (s : String) (c : Char) : ℤ := lastIdxAux c s.toList 0 (-1)

/-! Numeric parsing and rendering. -/

def digitsToNat (cs : List Char) : ℕ :=
  cs.foldl (fun n c => 10 * n + (c.toNat - '0'.toNat)) 0

/-- Python `float(text)` on the alphabet reachable through `parse_decimal`
(digits, `.`, `-`): optional leading sign, then digits with at most one
decimal point and at least one digit; anything else fails. -/
def parseFloat (s : String) : Option ℚ :=
  let cs := (pyStrip s).toList
  let signed : ℚ × List Char :=
    match cs with
    | '-' :: rest => (-1, rest)
    | '+' :: rest => (1, rest)
    | rest => (1, rest)
  let sgn := signed.1
  let cs := signed.2
  let intPart := cs.takeWhile Char.isDigit
  let cs1 := cs.dropWhile Char.isDigit
  match cs1 with
  | [] =>
    if intPart.isEmpty then Option.none
    else some (sgn * (digitsToNat intPart : ℚ))
  | '.' :: rest =>
    let fracPart := rest.takeWhile Char.isDigit
    let rest1 := rest.dropWhile Char.isDigit
    if intPart.isEmpty && fracPart.isEmpty then Option.none
    else if rest1.isEmpty then
      some (sgn * ((digitsToNat intPart : ℚ) +
        (digitsToNat fracPart : ℚ) / ((10 : ℚ) ^ fracPart.length)))
    else Option.none
  | _ => Option.none

/-- From `lexinvo/utils/normalize.py`: `parse_decimal`.  `DECIMAL_RE` keeps
only the characters `0-9`, `,`, `.`, `-`; with both separators present, the
one occurring last is the decimal separator. -/
def parse_decimal (v : PyVal) : Option ℚ :=
  match v with
  | .none => Option.none
  | .num q => some q
  | .str s =>
    let text := pyStrip s
    if text = "" then Option.none
    else
      let t := String.mk (text.toList.filter
        (fun c => c.isDigit || c = ',' || c = '.' || c = '-'))
      if t.toList.contains ',' && t.toList.contains '.' then
        if lastIdx t ',' > lastIdx t '.' then
          parseFloat (pyReplace (pyReplace t "." "") "," ".")
        else
          parseFloat (pyReplace t "," "")
      else if t.toList.contains ',' then
        parseFloat (pyReplace t "," ".")
      else
        parseFloat t

/-- Round-half-to-even to an integer (Python `round` idealised on exact
rationals). -/
def roundHalfEven (q : ℚ) : ℤ :=
  let n := ⌊q⌋
  let f := q - (n : ℚ)
  if 2 * f > 1 then n + 1
  else if 2 * f < 1 then n
  else if n % 2 = 0 then n else n + 1

/-- Python `round(x, 2)` idealised on exact rationals. -/
def pyRound2 (q : ℚ) : ℚ := (roundHalfEven (q * 100) : ℚ) / 100

def pad2 (n : ℕ) : String := if n < 10 then "0" ++ toString n else toString n

def pad4 (n : ℕ) : String :=
  if n < 10 then "000" ++ toString n
  else if n < 100 then "00" ++ toString n
  else if n < 1000 then "0" ++ toString n
  else toString n

def digitChar (k : ℕ) : Char := "0123456789".toList.getD k '0'

/-- Exactly two decimal digits (zero-padded) of `n < 100`. -/
def twoDigits (n : ℕ) : String :=
  String.mk [digitChar (n / 10 % 10), digitChar (n % 10)]

/-- Python `f-string` formatting `.2f` idealised on exact rationals. -/
def formatQ2 (q : ℚ) : String :=
  let c := roundHalfEven (q * 100)
  let a := c.natAbs
  let sign := if c < 0 ∨ (c = 0 ∧ q < 0) then "-" else ""
  sign ++ toString (a / 100) ++ "." ++ twoDigits (a % 100)

def fracDigitsAux : ℕ → ℕ → ℕ → String
  | 0, _, _ => ""
  | fuel + 1, r, b =>
    if r = 0 then ""
    else toString (r * 10 / b) ++ fracDigitsAux fuel (r * 10 % b) b

/-- Decimal rendering of a rational: integral values render like Python
`str(int)`, fractional ones like `str(float)` with a terminating expansion
(Python float values always have one). -/
def pyNumStr (q : ℚ) : String :=
  let sign := if q < 0 then "-" else ""
  let a := q.num.natAbs
  let b := q.den
  if b = 1 then sign ++ toString a
  else
    let frac := fracDigitsAux 64 (a % b) b
    sign ++ toString (a / b) ++ "." ++ (if frac = "" then "0" else frac)

/-- Python `str(value)`. -/
def pyStr : PyVal → String
  | .none => "None"
  | .str s => s
  | .num q => pyNumStr q

/-- Python `str.isdigit()` (nonempty, all decimal digits). -/
def strIsDigit (s : String) : Bool := s ≠ "" && s.toList.all Char.isDigit

/-! Gregorian calendar arithmetic (for `datetime.strptime`, `timedelta`,
`strftime("%Y-%m-%d")`). -/

structure PyDate where
  year : ℤ
  month : ℤ
  day : ℤ
deriving DecidableEq

def isLeap (y : ℤ) : Bool := (y % 4 = 0 && y % 100 ≠ 0) || y % 400 = 0

def daysInMonth (y m : ℤ) : ℤ :=
  if m = 2 then (if isLeap y then 29 else 28)
  else if m = 4 ∨ m = 6 ∨ m = 9 ∨ m = 11 then 30
  else 31

/-- Days-from-civil (Gregorian serial number of a date). -/
def dateToN (dt : PyDate) : ℤ :=
  let y := if dt.month ≤ 2 then dt.year - 1 else dt.year
  let era : ℤ := (if 0 ≤ y then y else y - 399) / 400
  let yoe := y - era * 400
  let mp := (dt.month + 9) % 12
  let doy := (153 * mp + 2) / 5 + dt.day - 1
  let doe := yoe * 365 + yoe / 4 - yoe / 100 + doy
  era * 146097 + doe

/-- Civil-from-days (inverse of `dateToN`). -/
def nToDate (z : ℤ) : PyDate :=
  let era : ℤ := (if 0 ≤ z then z else z - 146096) / 146097
  let doe := z - era * 146097
  let yoe := (doe - doe / 1460 + doe / 36524 - doe / 146096) / 365
  let y := yoe + era * 400
  let doy := doe - (365 * yoe + yoe / 4 - yoe / 100)
  let mp := (5 * doy + 2) / 153
  let d := doy - (153 * mp + 2) / 5 + 1
  let m := if mp < 10 then mp + 3 else mp - 9
  ⟨if m ≤ 2 then y + 1 else y, m, d⟩

def dateAddDays (dt : PyDate) (k : ℤ) : PyDate := nToDate (dateToN dt + k)

/-- Strict date comparison (`date1 > date2` in Python compares y/m/d
lexicographically). -/
def dateLt (a b : PyDate) : Bool :=
  a.year < b.year ∨ (a.year = b.year ∧
    (a.month < b.month ∨ (a.month = b.month ∧ a.day < b.day)))

/-- `datetime.strptime(s, "%Y-%m-%d")`: up to 4 year digits and up to 2
month/day digits, validated as a real Gregorian date. -/
def parseIsoDate (s : String) : Option PyDate :=
  match splitOnChar '-' s with
  | [ys, ms, ds] =>
    if strIsDigit ys && ys.length ≤ 4 && strIsDigit ms && ms.length ≤ 2 &&
        strIsDigit ds && ds.length ≤ 2 then
      let y : ℤ := digitsToNat ys.toList
      let m : ℤ := digitsToNat ms.toList
      let d : ℤ := digitsToNat ds.toList
      if 1 ≤ y ∧ y ≤ 9999 ∧ 1 ≤ m ∧ m ≤ 12 ∧ 1 ≤ d ∧ d ≤ daysInMonth y m then
        some ⟨y, m, d⟩
      else Option.none
    else Option.none
  | _ => Option.none

/-- `strftime("%Y-%m-%d")`. -/
def dateIso (dt : PyDate) : String :=
  pad4 dt.year.toNat ++ "-" ++ pad2 dt.month.toNat ++ "-" ++ pad2 dt.day.toNat

/-- From `lexinvo/utils/normalize.py`: `parse_date_to_iso` (regex-shaped
`DD.MM.YYYY` → `YYYY-MM-DD`, already-ISO text passes through, everything else
is unparseable). -/
def parse_date_to_iso (v : PyVal) : Option String :=
  match v with
  | .none => Option.none
  | _ =>
    let text := pyStrip (pyStr v)
    if text = "" then Option.none
    else
      match text.toList with
      | [a, b, '.', c, d, '.', e, f, g, h] =>
        if [a, b, c, d, e, f, g, h].all Char.isDigit then
          some (String.mk [e, f, g, h] ++ "-" ++ String.mk [c, d] ++ "-" ++
            String.mk [a, b])
        else Option.none
      | [a, b, c, d, '-', e, f, '-', g, h] =>
        if [a, b, c, d, e, f, g, h].all Char.isDigit then some text
        else Option.none
      | _ => Option.none

/-- From `lexinvo/utils/normalize.py`: `normalize_country`. -/
def normalize_country (v : PyVal) : Option PyVal :=
  match v with
  | .none => Option.none
  | _ =>
    let text := pyStrip (pyStr v)
    if text = "" then Option.none
    else
      let key := pyLower text
      if key = "deutschland" ∨ key = "germany" ∨ key = "de" then
        some (.str "DE")
      else if text.length = 2 && text.toList.all Char.isAlpha then
        some (.str (pyUpper text))
      else Option.none

/-- From `lexinvo/utils/normalize.py`: `normalize_vat_id` (strip, uppercase,
remove all whitespace). -/
def normalize_vat_id (v : PyVal) : Option String :=
  match v with
  | .none => Option.none
  | _ =>
    let text := pyUpper (pyStrip (pyStr v))
    if text = "" then Option.none
    else some (String.mk (text.toList.filter (fun c => !isPySpace c)))

/-- From `lexinvo/utils/normalize.py`: `normalize_email` (strip only). -/
def normalize_email (v : PyVal) : Option PyVal :=
  match v with
  | .none => Option.none
  | _ =>
    let text := pyStrip (pyStr v)
    if text = "" then Option.none else some (.str text)

/-! Canonical data model, from `lexinvo/core/models.py`. -/

/-- Provenance pointer attached to a field value or patch (a Python dict of
evidence keys). -/
abbrev Evidence := List (String × PyVal)

/-- One business term's state (`BTValue` dataclass). -/
structure BTValue where
  bt : String
  value : PyVal
  rawValue : PyVal := .none
  status : String := "missing"
  source : String := "azure"
  confidence : Option ℚ := Option.none
  derivation : Option String := Option.none
  evidence : Option Evidence := Option.none
  ruleId : Option String := Option.none
deriving DecidableEq

/-- Association map of BT codes to field records (a Python dict in insertion
order; lookups return the first binding). -/
abbrev BTMap := List (String × BTValue)

def alget (m : BTMap) (k : String) : Option BTValue :=
  (m.find? (fun e => e.1 = k)).map (·.2)

def alset : BTMap → String → BTValue → BTMap
  | [], _, _ => []
  | e :: es, k, v => if e.1 = k then (k, v) :: es else e :: alset es k v

/-- `CanonicalLine` dataclass. -/
structure CanonicalLine where
  lineId : ℤ
  bt : BTMap
deriving DecidableEq

/-- `Patch` dataclass: an immutable proposed single-field mutation. -/
structure Patch where
  scope : String
  bt : String
  newValue : PyVal
  lineId : Option ℤ := Option.none
  status : String := "corrected"
  source : String := "rule"
  derivation : String := ""
  ruleId : String := ""
  evidence : Option Evidence := Option.none
deriving DecidableEq

/-- One audit entry of the invoice patch log (the dict appended by
`apply_patch`). -/
structure LogEntry where
  bt : String
  scope : String
  lineId : Option ℤ
  oldValue : PyVal
  newValue : PyVal
  status : String
  derivation : String
  ruleId : String
deriving DecidableEq

/-- Raw Azure field object (`content` / `value*` variants plus nested
`valueArray`), from the ingestion JSON consumed by `load_azure`. -/
inductive AzureField where
  | mk (content valueString valueDate valueNumber : Option PyVal)
       (source : Option String) (confidence : Option ℚ)
       (valueArray : List (List (String × AzureField)))

def AzureField.content : AzureField → Option PyVal
  | .mk c _ _ _ _ _ _ => c

def AzureField.valueString : AzureField → Option PyVal
  | .mk _ v _ _ _ _ _ => v

def AzureField.valueDate : AzureField → Option PyVal
  | .mk _ _ v _ _ _ _ => v

def AzureField.valueNumber : AzureField → Option PyVal
  | .mk _ _ _ v _ _ _ => v

def AzureField.source : AzureField → Option String
  | .mk _ _ _ _ s _ _ => s

def AzureField.confidence : AzureField → Option ℚ
  | .mk _ _ _ _ _ c _ => c

def AzureField.valueArray : AzureField → List (List (String × AzureField))
  | .mk _ _ _ _ _ _ a => a

/-- Raw ingestion document: the `analyzeResult.content` full-text blob plus
the `analyzeResult.documents[*].fields` objects. -/
structure AzureInput where
  content : String
  documents : List (List (String × AzureField))

/-- `CanonicalInvoice` dataclass. -/
structure CanonicalInvoice where
  header : BTMap
  lines : List CanonicalLine
  totals : BTMap
  raw : AzureInput
  patches : List LogEntry

/-! Patch/audit store, from `lexinvo/core/btstore.py`. -/

/-- `empty_btvalue`. -/
def empty_btvalue (bt : String) : BTValue :=
  { bt := bt, value := .none, rawValue := .none, status := "missing",
    source := "azure" }

/-- Python equality `line.line_id == patch.line_id` (an `int` never equals
`None`). -/
def lineIdEq (lineId : ℤ) (patchLineId : Option ℤ) : Bool :=
  match patchLineId with
  | some k => lineId = k
  | Option.none => false

/-- Target resolution performed by `apply_patch`: header/totals dict lookup,
or the first line with a matching line id, then the code within that line. -/
def resolveTarget (invoice : CanonicalInvoice) (patch : Patch) :
    Option BTValue :=
  if patch.scope = "header" then alget invoice.header patch.bt
  else if patch.scope = "totals" then alget invoice.totals patch.bt
  else
    match invoice.lines.find? (fun line => lineIdEq line.lineId patch.lineId) with
    | some line => alget line.bt patch.bt
    | Option.none => Option.none

/-- Record state after `apply_patch` overwrites a resolved target. -/
def patchedRecord (r : BTValue) (patch : Patch) : BTValue :=
  { r with value := patch.newValue, status := patch.status,
           source := patch.source, derivation := some patch.derivation,
           ruleId := some patch.ruleId, evidence := patch.evidence }

/-- Audit entry appended by `apply_patch` for a resolved target whose prior
value was `oldValue`. -/
def logEntryFor (oldValue : PyVal) (patch : Patch) : LogEntry :=
  { bt := patch.bt, scope := patch.scope, lineId := patch.lineId,
    oldValue := oldValue, newValue := patch.newValue, status := patch.status,
    derivation := patch.derivation, ruleId := patch.ruleId }

def updateLineBT (lines : List CanonicalLine) (lineId : Option ℤ)
    (bt : String) (r : BTValue) : List CanonicalLine :=
  match lines with
  | [] => []
  | line :: rest =>
    if lineIdEq line.lineId lineId then
      { line with bt := alset line.bt bt r } :: rest
    else line :: updateLineBT rest lineId bt r

/-- From `lexinvo/core/btstore.py`: `apply_patch` — resolve the target by
scope; on failure the invoice is returned unchanged (silent no-op); on
success overwrite value/status/source/derivation/rule id/evidence and append
exactly one audit entry. -/
def apply_patch (invoice : CanonicalInvoice) (patch : Patch) :
    CanonicalInvoice :=
  match resolveTarget invoice patch with
  | Option.none => invoice
  | some record =>
    let updated := patchedRecord record patch
    let entry := logEntryFor record.value patch
    if patch.scope = "header" then
      { invoice with header := alset invoice.header patch.bt updated,
                     patches := invoice.patches ++ [entry] }
    else if patch.scope = "totals" then
      { invoice with totals := alset invoice.totals patch.bt updated,
                     patches := invoice.patches ++ [entry] }
    else
      { invoice with
          lines := updateLineBT invoice.lines patch.lineId patch.bt updated,
          patches := invoice.patches ++ [entry] }

/-- Sequential application of a phase's patch list, one at a time, in the
order produced (the `for patch in …: apply_patch(invoice, patch)` loops of
`pipeline.py`). -/
def applyPatches (invoice : CanonicalInvoice) (ps : List Patch) :
    CanonicalInvoice :=
  ps.foldl apply_patch invoice

/-! Rule-engine lookup tables and helpers, from `lexinvo/core/rules_engine.py`. -/

def TOLERANCE : ℚ := 2 / 100

def DE_STATE_CODES : List (String × String) := [
  ("Baden-Württemberg", "DE-BW"),
  ("Bayern", "DE-BY"),
  ("Berlin", "DE-BE"),
  ("Brandenburg", "DE-BB"),
  ("Bremen", "DE-HB"),
  ("Hamburg", "DE-HH"),
  ("Hessen", "DE-HE"),
  ("Mecklenburg-Vorpommern", "DE-MV"),
  ("Niedersachsen", "DE-NI"),
  ("Nordrhein-Westfalen", "DE-NW"),
  ("Rheinland-Pfalz", "DE-RP"),
  ("Saarland", "DE-SL"),
  ("Sachsen", "DE-SN"),
  ("Sachsen-Anhalt", "DE-ST"),
  ("Schleswig-Holstein", "DE-SH"),
  ("Thüringen", "DE-TH")]

def DE_POSTCODE_RANGES : List (ℕ × ℕ × String) := [
  (1001, 1936, "Sachsen"),
  (1941, 1998, "Brandenburg"),
  (2601, 2999, "Sachsen"),
  (3001, 3253, "Brandenburg"),
  (4001, 4579, "Sachsen"),
  (4581, 4639, "Thüringen"),
  (4641, 4889, "Sachsen"),
  (4891, 4938, "Brandenburg"),
  (6001, 6548, "Sachsen-Anhalt"),
  (6551, 6578, "Thüringen"),
  (6601, 6928, "Sachsen-Anhalt"),
  (7301, 7919, "Thüringen"),
  (7919, 7919, "Sachsen"),
  (7919, 7919, "Thüringen"),
  (7919, 7919, "Sachsen"),
  (7920, 7950, "Thüringen"),
  (7951, 7951, "Sachsen"),
  (7952, 7952, "Thüringen"),
  (7952, 7952, "Sachsen"),
  (7953, 7980, "Thüringen"),
  (7982, 7982, "Sachsen"),
  (7985, 7985, "Thüringen"),
  (7985, 7985, "Sachsen"),
  (7985, 7989, "Thüringen"),
  (8001, 9669, "Sachsen"),
  (10001, 14330, "Berlin"),
  (14401, 14715, "Brandenburg"),
  (14715, 14715, "Sachsen-Anhalt"),
  (14723, 16949, "Brandenburg"),
  (17001, 17256, "Mecklenburg-Vorpommern"),
  (17258, 17258, "Brandenburg"),
  (17258, 17259, "Mecklenburg-Vorpommern"),
  (17261, 17291, "Brandenburg"),
  (17301, 17309, "Mecklenburg-Vorpommern"),
  (17309, 17309, "Brandenburg"),
  (17309, 17321, "Mecklenburg-Vorpommern"),
  (17321, 17321, "Brandenburg"),
  (17321, 17322, "Mecklenburg-Vorpommern"),
  (17326, 17326, "Brandenburg"),
  (17328, 17331, "Mecklenburg-Vorpommern"),
  (17335, 17335, "Brandenburg"),
  (17335, 17335, "Mecklenburg-Vorpommern"),
  (17337, 17337, "Brandenburg"),
  (17337, 19260, "Mecklenburg-Vorpommern"),
  (19271, 19273, "Niedersachsen"),
  (19273, 19273, "Mecklenburg-Vorpommern"),
  (19273, 19306, "Mecklenburg-Vorpommern"),
  (19307, 19357, "Brandenburg"),
  (19357, 19417, "Mecklenburg-Vorpommern"),
  (20001, 21037, "Hamburg"),
  (21039, 21039, "Schleswig-Holstein"),
  (21039, 21170, "Hamburg"),
  (21202, 21449, "Niedersachsen"),
  (21451, 21521, "Schleswig-Holstein"),
  (21522, 21522, "Niedersachsen"),
  (21524, 21529, "Schleswig-Holstein"),
  (21601, 21789, "Niedersachsen"),
  (22001, 22113, "Hamburg"),
  (22113, 22113, "Schleswig-Holstein"),
  (22115, 22143, "Hamburg"),
  (22145, 22145, "Schleswig-Holstein"),
  (22145, 22145, "Hamburg"),
  (22145, 22145, "Schleswig-Holstein"),
  (22147, 22786, "Hamburg"),
  (22801, 23919, "Schleswig-Holstein"),
  (23921, 23999, "Mecklenburg-Vorpommern"),
  (24001, 25999, "Schleswig-Holstein"),
  (26001, 27478, "Niedersachsen"),
  (27483, 27498, "Schleswig-Holstein"),
  (27499, 27499, "Hamburg"),
  (27501, 27580, "Bremen"),
  (27607, 27809, "Niedersachsen"),
  (28001, 28779, "Bremen"),
  (28784, 29399, "Niedersachsen"),
  (29401, 29416, "Sachsen-Anhalt"),
  (29431, 31868, "Niedersachsen"),
  (32001, 33829, "Nordrhein-Westfalen"),
  (34001, 34329, "Hessen"),
  (34331, 34353, "Niedersachsen"),
  (34355, 34355, "Hessen"),
  (34355, 34355, "Niedersachsen"),
  (34356, 34399, "Hessen"),
  (34401, 34439, "Nordrhein-Westfalen"),
  (34441, 36399, "Hessen"),
  (36401, 36469, "Thüringen"),
  (37001, 37194, "Niedersachsen"),
  (37194, 37195, "Hessen"),
  (37197, 37199, "Niedersachsen"),
  (37201, 37299, "Hessen"),
  (37301, 37359, "Thüringen"),
  (37401, 37649, "Niedersachsen"),
  (37651, 37688, "Nordrhein-Westfalen"),
  (37689, 37691, "Niedersachsen"),
  (37692, 37696, "Nordrhein-Westfalen"),
  (37697, 38479, "Niedersachsen"),
  (38481, 38489, "Sachsen-Anhalt"),
  (38501, 38729, "Niedersachsen"),
  (38801, 39649, "Sachsen-Anhalt"),
  (40001, 48432, "Nordrhein-Westfalen"),
  (48442, 48465, "Niedersachsen"),
  (48466, 48477, "Nordrhein-Westfalen"),
  (48478, 48480, "Niedersachsen"),
  (48481, 48485, "Nordrhein-Westfalen"),
  (48486, 48488, "Niedersachsen"),
  (48489, 48496, "Nordrhein-Westfalen"),
  (48497, 48531, "Niedersachsen"),
  (48541, 48739, "Nordrhein-Westfalen"),
  (49001, 49459, "Niedersachsen"),
  (49461, 49549, "Nordrhein-Westfalen"),
  (49551, 49849, "Niedersachsen"),
  (50101, 51597, "Nordrhein-Westfalen"),
  (51598, 51598, "Rheinland-Pfalz"),
  (51601, 53359, "Nordrhein-Westfalen"),
  (53401, 53579, "Rheinland-Pfalz"),
  (53581, 53604, "Nordrhein-Westfalen"),
  (53614, 53619, "Rheinland-Pfalz"),
  (53621, 53949, "Nordrhein-Westfalen"),
  (54181, 55239, "Rheinland-Pfalz"),
  (55240, 55252, "Hessen"),
  (55253, 56869, "Rheinland-Pfalz"),
  (57001, 57489, "Nordrhein-Westfalen"),
  (57501, 57648, "Rheinland-Pfalz"),
  (58001, 59966, "Nordrhein-Westfalen"),
  (59969, 59969, "Hessen"),
  (59969, 59969, "Nordrhein-Westfalen"),
  (60001, 63699, "Hessen"),
  (63701, 63774, "Bayern"),
  (63776, 63776, "Hessen"),
  (63776, 63928, "Bayern"),
  (63928, 63928, "Baden-Württemberg"),
  (63930, 63939, "Bayern"),
  (64201, 64753, "Hessen"),
  (64754, 64754, "Baden-Württemberg"),
  (64754, 65326, "Hessen"),
  (65326, 65326, "Rheinland-Pfalz"),
  (65327, 65391, "Hessen"),
  (65391, 65391, "Rheinland-Pfalz"),
  (65392, 65556, "Hessen"),
  (65558, 65582, "Rheinland-Pfalz"),
  (65583, 65620, "Hessen"),
  (65621, 65626, "Rheinland-Pfalz"),
  (65627, 65627, "Hessen"),
  (65629, 65629, "Rheinland-Pfalz"),
  (65701, 65936, "Hessen"),
  (66001, 66459, "Saarland"),
  (66461, 66509, "Rheinland-Pfalz"),
  (66511, 66839, "Saarland"),
  (66841, 67829, "Rheinland-Pfalz"),
  (68001, 68312, "Baden-Württemberg"),
  (68501, 68519, "Hessen"),
  (68520, 68549, "Baden-Württemberg"),
  (68601, 68649, "Hessen"),
  (68701, 69234, "Baden-Württemberg"),
  (69235, 69239, "Hessen"),
  (69240, 69429, "Baden-Württemberg"),
  (69430, 69431, "Hessen"),
  (69434, 69434, "Baden-Württemberg"),
  (69434, 69434, "Hessen"),
  (69435, 69469, "Baden-Württemberg"),
  (69479, 69488, "Hessen"),
  (69489, 69502, "Baden-Württemberg"),
  (69503, 69509, "Hessen"),
  (69510, 69514, "Baden-Württemberg"),
  (69515, 69518, "Hessen"),
  (70001, 74592, "Baden-Württemberg"),
  (74594, 74594, "Bayern"),
  (74594, 76709, "Baden-Württemberg"),
  (76711, 76891, "Rheinland-Pfalz"),
  (77601, 79879, "Baden-Württemberg"),
  (80001, 87490, "Bayern"),
  (87491, 87491, "Außerhalb der BRD"),
  (87493, 87561, "Bayern"),
  (87567, 87569, "Außerhalb der BRD"),
  (87571, 87789, "Bayern"),
  (88001, 88099, "Baden-Württemberg"),
  (88101, 88146, "Bayern"),
  (88147, 88147, "Baden-Württemberg"),
  (88147, 88179, "Bayern"),
  (88181, 89079, "Baden-Württemberg"),
  (89081, 89081, "Bayern"),
  (89081, 89085, "Baden-Württemberg"),
  (89087, 89087, "Bayern"),
  (89090, 89198, "Baden-Württemberg"),
  (89201, 89449, "Bayern"),
  (89501, 89619, "Baden-Württemberg"),
  (90001, 96489, "Bayern"),
  (96501, 96529, "Thüringen"),
  (97001, 97859, "Bayern"),
  (97861, 97877, "Baden-Württemberg"),
  (97888, 97892, "Bayern"),
  (97893, 97896, "Baden-Württemberg"),
  (97896, 97896, "Bayern"),
  (97897, 97900, "Baden-Württemberg"),
  (97901, 97909, "Bayern"),
  (97911, 97999, "Baden-Württemberg"),
  (98501, 99998, "Thüringen")]

/-- Word characters of the `re` module (`\w` over ASCII). -/
def isWordChar (c : Char) : Bool := c.isAlpha || c.isDigit || c = '_'

/-- Word boundary `\b` immediately after a match ending before `l`. -/
def boundaryAfter : List Char → Bool
  | [] => true
  | c :: _ => !isWordChar c

/-- Word boundary `\b` before a position whose preceding character is
`prev` (`Option.none` at the start of the text). -/
def boundaryBefore : Option Char → Bool
  | Option.none => true
  | some p => !isWordChar p

/-- Case-insensitive literal prefix match; returns the remaining text. -/
def matchPrefixCI (pat : String) (l : List Char) : Option (List Char) :=
  if (l.take pat.length).map lowerChar = pat.toList then some (l.drop pat.length)
  else Option.none

/-- From `rules_engine.py`: `_normalize_de_postcode`. -/
def normalize_de_postcode (v : PyVal) : Option ℕ :=
  match v with
  | .none => Option.none
  | _ =>
    let text := pyUpper (pyStrip (pyStr v))
    let text := if text.toList.take 2 = ['D', '-'] then
        String.mk (text.toList.drop 2) else text
    let digits := text.toList.filter Char.isDigit
    if digits.length < 5 then Option.none
    else some (digitsToNat (digits.take 5))

def lookupStr (m : List (String × String)) (k : String) : Option String :=
  (m.find? (fun e => e.1 = k)).map (·.2)

/-- Distinct states named by the table ranges matching a postcode (the set
comprehension of `_de_subdivision_from_postcode`). -/
def matchedStates (ranges : List (ℕ × ℕ × String)) (pc : ℕ) : List String :=
  ((ranges.filter (fun r => r.1 ≤ pc ∧ pc ≤ r.2.1)).map (fun r => r.2.2)).dedup

/-- Subdivision lookup logic of `_de_subdivision_from_postcode`, with the
range table as an argument: discard the non-state entry, then require a
unique federal state. -/
def subdivisionFromRanges (ranges : List (ℕ × ℕ × String)) (v : PyVal) :
    Option String :=
  match normalize_de_postcode v with
  | Option.none => Option.none
  | some pc =>
    let ms := (matchedStates ranges pc).filter
      (fun s => s ≠ "Außerhalb der BRD")
    match ms with
    | [st] => lookupStr DE_STATE_CODES st
    | _ => Option.none

/-- From `rules_engine.py`: `_de_subdivision_from_postcode`. -/
def de_subdivision_from_postcode (v : PyVal) : Option String :=
  subdivisionFromRanges DE_POSTCODE_RANGES v

/-- Leftmost match of `([A-Z]{2}\d+)` (greedy digit run). -/
def vatIdSearch : List Char → Option String
  | a :: b :: c :: rest =>
    if ('A' ≤ a ∧ a ≤ 'Z') ∧ ('A' ≤ b ∧ b ≤ 'Z') ∧ c.isDigit then
      some (String.mk (a :: b :: c :: rest.takeWhile Char.isDigit))
    else vatIdSearch (b :: c :: rest)
  | _ => Option.none

/-- From `rules_engine.py`: `_extract_vat_id` — normalize, then prefer a
two-letter-prefix + digits token. -/
def extract_vat_id (v : PyVal) : Option String :=
  match normalize_vat_id v with
  | Option.none => Option.none
  | some text =>
    if text = "" then Option.none
    else match vatIdSearch text.toList with
      | some m => some m
      | Option.none => some text

/-- Leftmost match of `\b(HR[AB]\s*\d+)\b`, returning the matched group. -/
def hrSearchAux : Option Char → List Char → Option String
  | prev, 'H' :: 'R' :: x :: rest =>
    if boundaryBefore prev ∧ (x = 'A' ∨ x = 'B') then
      let sp := rest.takeWhile isPySpace
      let rest1 := rest.dropWhile isPySpace
      let ds := rest1.takeWhile Char.isDigit
      let rest2 := rest1.dropWhile Char.isDigit
      if !ds.isEmpty && boundaryAfter rest2 then
        some (String.mk ('H' :: 'R' :: x :: (sp ++ ds)))
      else hrSearchAux (some 'H') ('R' :: x :: rest)
    else hrSearchAux (some 'H') ('R' :: x :: rest)
  | _, c :: cs => hrSearchAux (some c) cs
  | _, [] => Option.none

/-- From `rules_engine.py`: `_extract_registration_id` — a recognized
registry-number pattern if present, else the first line, stripped. -/
def extract_registration_id (v : PyVal) : Option String :=
  match v with
  | .none => Option.none
  | _ =>
    let text := pyStr v
    if pyStrip text = "" then Option.none
    else match hrSearchAux Option.none text.toList with
      | some m => some (pyStrip m)
      | Option.none => some (pyStrip ((pySplitLines text).headD ""))

/-- `re.sub(r"\bNr\.?\b", "", text, flags=IGNORECASE)` (each step consumes
at least one character, so fuel = text length suffices). -/
def subNrAux : ℕ → Option Char → List Char → List Char
  | 0, _, l => l
  | _ + 1, _, [] => []
  | fuel + 1, prev, a :: rest =>
    if boundaryBefore prev && (a = 'N' || a = 'n') then
      match rest with
      | b :: rest2 =>
        if b = 'R' ∨ b = 'r' then
          match rest2 with
          | '.' :: c :: rest3 =>
            if isWordChar c then subNrAux fuel (some '.') (c :: rest3)
            else subNrAux fuel (some b) ('.' :: c :: rest3)
          | ['.'] => subNrAux fuel (some b) ['.']
          | c :: rest3 =>
            if isWordChar c then a :: subNrAux fuel (some a) (b :: c :: rest3)
            else subNrAux fuel (some b) (c :: rest3)
          | [] => []
        else a :: subNrAux fuel (some a) (b :: rest2)
      | [] => a :: subNrAux fuel (some a) []
    else a :: subNrAux fuel (some a) rest

/-- From `rules_engine.py`: `_normalize_tax_registration` — drop `Nr.`
labels, keep digits and the separators `/ . - space`, strip; empty becomes
`None`. -/
def normalize_tax_registration (v : PyVal) : Option String :=
  match v with
  | .none => Option.none
  | _ =>
    let text := pyStrip (pyStr v)
    if text = "" then Option.none
    else
      let t1 := pyStrip (String.mk (subNrAux text.toList.length Option.none text.toList))
      let cleaned := pyStrip (String.mk (t1.toList.filter
        (fun c => c.isDigit || c = '/' || c = '.' || c = '-' || c = ' ')))
      if cleaned = "" then Option.none else some cleaned

/-- Non-overlapping matches of `\b\d{2}\.\d{2}\.\d{4}\b` (`re.findall`). -/
def datesFindAux : Option Char → List Char → List String
  | prev, d1 :: d2 :: '.' :: m1 :: m2 :: '.' :: y1 :: y2 :: y3 :: y4 :: rest =>
    if boundaryBefore prev &&
        [d1, d2, m1, m2, y1, y2, y3, y4].all Char.isDigit &&
        boundaryAfter rest then
      String.mk [d1, d2, '.', m1, m2, '.', y1, y2, y3, y4] ::
        datesFindAux (some y4) rest
    else datesFindAux (some d1) (d2 :: '.' :: m1 :: m2 :: '.' :: y1 :: y2 :: y3 :: y4 :: rest)
  | _, c :: cs => datesFindAux (some c) cs
  | _, [] => []

/-- From `rules_engine.py`: `_extract_dates_from_text`. -/
def extract_dates_from_text (text : String) : List String :=
  (datesFindAux Option.none text.toList).filterMap
    (fun m => parse_date_to_iso (.str m))

/-- Matches of `(\d+)\s*Tage` (`re.findall`, IGNORECASE), returning the digit
groups (fuel = text length). -/
def daysFindAux : ℕ → List Char → List (List Char)
  | 0, _ => []
  | _ + 1, [] => []
  | fuel + 1, c :: cs =>
    if c.isDigit then
      let ds := c :: cs.takeWhile Char.isDigit
      let rest1 := (cs.dropWhile Char.isDigit).dropWhile isPySpace
      if (rest1.take 4).map lowerChar = "tage".toList then
        ds :: daysFindAux fuel (rest1.drop 4)
      else daysFindAux fuel cs
    else daysFindAux fuel cs

/-- Python inequality `s != value` between a string and a stored value. -/
def strNeVal (s : String) (v : PyVal) : Bool :=
  match v with
  | .str t => decide (s ≠ t)
  | _ => true

/-- From `rules_engine.py`: `_make_patch`. -/
def make_patch (scope bt : String) (newValue : PyVal) (status source : String)
    (derivation ruleId : String) (lineId : Option ℤ := Option.none)
    (evidence : Option Evidence := Option.none) : Patch :=
  { scope := scope, bt := bt, newValue := newValue, lineId := lineId,
    status := status, source := source, derivation := derivation,
    ruleId := ruleId, evidence := evidence }

/-- Monetary total codes normalized by phase 1 (`amount_bts`; a Python set
literal, modelled in source order — no claim depends on set iteration
order). -/
def amount_bts : List String :=
  ["BT-92", "BT-93", "BT-94", "BT-99", "BT-100", "BT-103", "BT-106",
   "BT-107", "BT-108", "BT-109", "BT-110", "BT-112", "BT-113", "BT-115",
   "BT-116"]

def line_amount_bts : List String :=
  ["BT-131", "BT-146", "BT-147", "BT-148", "BT-149"]

/-- Date normalization rule of `phase1_normalize` (BT-2). -/
def p1DateBlock (invoice : CanonicalInvoice) : List Patch :=
  match alget invoice.header "BT-2" with
  | some r =>
    if r.value.truthy then
      let src := if r.rawValue.truthy then r.rawValue else r.value
      match parse_date_to_iso src with
      | some n =>
        if n ≠ "" && strNeVal n r.value then
          [make_patch "header" "BT-2" (.str n) "corrected" "rule"
            "Normalized date to ISO" "R-HDR-DATE-001" Option.none r.evidence]
        else []
      | Option.none => []
    else []
  | Option.none => []

def p1VatBlock (invoice : CanonicalInvoice) : List Patch :=
  match alget invoice.header "BT-31" with
  | some r =>
    if r.value.truthy then
      match extract_vat_id r.value with
      | some n =>
        if n ≠ "" && strNeVal n r.value then
          [make_patch "header" "BT-31" (.str n) "corrected" "rule"
            "Normalized VAT ID" "R-HDR-VAT-001" Option.none r.evidence]
        else []
      | Option.none => []
    else []
  | Option.none => []

def p1RegBlock (invoice : CanonicalInvoice) : List Patch :=
  match alget invoice.header "BT-30" with
  | some r =>
    if r.value.truthy then
      match extract_registration_id r.value with
      | some n =>
        if n ≠ "" && strNeVal n r.value then
          [make_patch "header" "BT-30" (.str n) "corrected" "rule"
            "Normalized registration identifier to single value"
            "R-HDR-REG-001" Option.none r.evidence]
        else []
      | Option.none => []
    else []
  | Option.none => []

def p1EmailBlock (invoice : CanonicalInvoice) : List Patch :=
  match alget invoice.header "BT-34" with
  | some r =>
    if r.value.truthy then
      match normalize_email r.value with
      | some n =>
        if n.truthy && decide (n ≠ r.value) then
          [make_patch "header" "BT-34" n "corrected" "rule"
            "Normalized email" "R-HDR-EMAIL-001" Option.none r.evidence]
        else []
      | Option.none => []
    else []
  | Option.none => []

def p1TaxRegBlock (invoice : CanonicalInvoice) : List Patch :=
  match alget invoice.header "BT-32" with
  | some r =>
    if r.value.truthy then
      match normalize_tax_registration r.value with
      | some n =>
        if n ≠ "" && strNeVal n r.value then
          [make_patch "header" "BT-32" (.str n) "corrected" "rule"
            "Normalized tax registration identifier" "R-HDR-TAXREG-001"
            Option.none r.evidence]
        else []
      | Option.none => []
    else []
  | Option.none => []

def p1CountryBlock (invoice : CanonicalInvoice) : List Patch :=
  match alget invoice.header "BT-55" with
  | some r =>
    if r.value.truthy then
      match normalize_country r.value with
      | some n =>
        if n.truthy && decide (n ≠ r.value) then
          [make_patch "header" "BT-55" n "corrected" "rule"
            "Normalized country to ISO2" "R-HDR-COUNTRY-BUYER-001"
            Option.none r.evidence]
        else []
      | Option.none => []
    else []
  | Option.none => []

def p1TotalsBlock (invoice : CanonicalInvoice) : List Patch :=
  amount_bts.flatMap (fun bt =>
  match alget invoice.totals bt with
  | some r =>
    match r.value with
    | .str s =>
      match parse_decimal (.str s) with
      | some numeric =>
        let normalized := formatQ2 numeric
        if normalized ≠ s then
          [make_patch "totals" bt (.str normalized) "corrected" "rule"
            "Normalized amount format" "R-TOT-AMOUNT-NORM-001"
            Option.none r.evidence]
        else []
      | Option.none => []
    | _ => []
  | Option.none => [])

def p1LineBlock (invoice : CanonicalInvoice) : List Patch :=
  invoice.lines.flatMap (fun line =>
  line_amount_bts.flatMap (fun bt =>
    match alget line.bt bt with
    | some r =>
      match r.value with
      | .str s =>
        match parse_decimal (.str s) with
        | some numeric =>
          let normalized := formatQ2 numeric
          if normalized ≠ s then
            [make_patch "line" bt (.str normalized) "corrected" "rule"
              "Normalized amount format" "R-LINE-AMOUNT-NORM-001"
              (some line.lineId) r.evidence]
          else []
        | Option.none => []
      | _ => []
    | Option.none => []))

/-- From `rules_engine.py`: `phase1_normalize` — format-only corrections,
returning patches only where the computed form differs from the current
value; the rule blocks appear in source order. -/
def phase1_normalize (invoice : CanonicalInvoice) : List Patch :=
  p1DateBlock invoice ++ p1VatBlock invoice ++ p1RegBlock invoice ++ p1EmailBlock invoice ++ p1TaxRegBlock invoice ++
    p1CountryBlock invoice ++ p1TotalsBlock invoice ++ p1LineBlock invoice


/-- Tail `\s*%\s*skonto` (IGNORECASE) of the phase-2 Skonto percent regex. -/
def matchSkontoTail (l : List Char) : Bool :=
  match l.dropWhile isPySpace with
  | '%' :: l2 => (matchPrefixCI "skonto" (l2.dropWhile isPySpace)).isSome
  | _ => false

/-- Leftmost match of `(\d+(?:\.\d+)?)\s*%\s*skonto` (IGNORECASE), returning
the captured number text. -/
def skontoPercentSearch : List Char → Option String
  | [] => Option.none
  | c :: cs =>
    if c.isDigit then
      let ds := c :: cs.takeWhile Char.isDigit
      let rest := cs.dropWhile Char.isDigit
      match rest with
      | '.' :: r2 =>
        if (match r2 with | d :: _ => d.isDigit | [] => false) then
          let fs := r2.takeWhile Char.isDigit
          let r3 := r2.dropWhile Char.isDigit
          if matchSkontoTail r3 then some (String.mk (ds ++ '.' :: fs))
          else if matchSkontoTail rest then some (String.mk ds)
          else skontoPercentSearch cs
        else if matchSkontoTail rest then some (String.mk ds)
        else skontoPercentSearch cs
      | _ =>
        if matchSkontoTail rest then some (String.mk ds)
        else skontoPercentSearch cs
    else skontoPercentSearch cs

/-- Tail `\s*(?:eur|€)?\)` of the phase-2 parenthesised-amount regex. -/
def eurCloseOk (l : List Char) : Bool :=
  let l1 := l.dropWhile isPySpace
  (match matchPrefixCI "eur" l1 with
   | some l2 => (match l2 with | ')' :: _ => true | _ => false)
   | Option.none => false) ||
  (match l1 with
   | '€' :: ')' :: _ => true
   | ')' :: _ => true
   | _ => false)

/-- Leftmost match of `\(([-\d\.]+)\s*(?:eur|€)?\)` (IGNORECASE), returning
the captured class run. -/
def skontoAmountSearch : List Char → Option String
  | [] => Option.none
  | '(' :: cs =>
    let run := cs.takeWhile (fun c => c.isDigit || c = '-' || c = '.')
    let rest := cs.dropWhile (fun c => c.isDigit || c = '-' || c = '.')
    if run.isEmpty then skontoAmountSearch cs
    else if eurCloseOk rest then some (String.mk run)
    else skontoAmountSearch cs
  | _ :: cs => skontoAmountSearch cs

/-- Fixed instant-payment vocabulary of the rule engine. -/
def instant_tokens : List String :=
  ["vorkasse", "credit card", "kreditkarte", "paypal", "ebay", "klarna",
   "kaufland", "amazon", "online"]

def anyInstantToken (s : String) : Bool :=
  instant_tokens.any (fun tok => containsSub (pyLower s) tok)

def orZero : Option ℚ → ℚ
  | some q => if q = 0 then 0 else q
  | Option.none => 0

/-- `parse_decimal(record.value) if record else None`. -/
def parseOfRecord (r : Option BTValue) : Option ℚ :=
  match r with
  | some r => parse_decimal r.value
  | Option.none => Option.none

/-- `parse_decimal(record.value) if record and record.value else None`. -/
def parseOfTruthy (r : Option BTValue) : Option ℚ :=
  match r with
  | some r => if r.value.truthy then parse_decimal r.value else Option.none
  | Option.none => Option.none

/-- Record exists and its current value is empty (`rec and not rec.value`). -/
def existsEmpty (r : Option BTValue) : Bool :=
  match r with
  | some r => !r.value.truthy
  | Option.none => false

/-- Record exists and its current value is present (`rec and rec.value`). -/
def existsTruthy (r : Option BTValue) : Bool :=
  match r with
  | some r => r.value.truthy
  | Option.none => false

/-- Line-identifier rule of `phase2_derive` (BT-126). -/
def p2LineIdBlock (invoice : CanonicalInvoice) : List Patch :=
  invoice.lines.flatMap (fun line =>
  match alget line.bt "BT-126" with
  | some r =>
    if !r.value.truthy then
      [make_patch "line" "BT-126" (.str (toString line.lineId)) "derived"
        "derived" "Assigned line number as identifier" "R-LINE-ID-001"
        (some line.lineId)
        (some [("from", .str "line_index"), ("line_id", .num line.lineId)])]
    else []
  | Option.none => [])

def p2BuyerBlock (invoice : CanonicalInvoice) : List Patch :=
  match alget invoice.header "BT-53" with
  | some bt53 =>
    if bt53.value.truthy then
      let post_code := pyStrip (pyStr bt53.value)
      let aBlock :=
        if existsEmpty (alget invoice.header "BT-55") && post_code ≠ "" then
          if post_code.toList.take 2 = ['D', '-'] ||
              (strIsDigit post_code && post_code.length = 5) then
            [make_patch "header" "BT-55" (.str "DE") "derived" "derived"
              "Derived country code from buyer post code"
              "R-HDR-COUNTRY-BUYER-POST-001" Option.none bt53.evidence]
          else []
        else []
      let bBlock :=
        if existsEmpty (alget invoice.header "BT-54") then
          match de_subdivision_from_postcode bt53.value with
          | some sub =>
            if sub ≠ "" then
              [make_patch "header" "BT-54" (.str sub) "derived" "derived"
                "Derived country subdivision from German buyer post code"
                "R-HDR-SUBDIV-BUYER-POST-001" Option.none bt53.evidence]
            else []
          | Option.none => []
        else []
      aBlock ++ bBlock
    else []
  | Option.none => []

def p2SellerBlock (invoice : CanonicalInvoice) : List Patch :=
  match alget invoice.header "BT-38" with
  | some bt38 =>
    if bt38.value.truthy then
      let post_code := pyStrip (pyStr bt38.value)
      let is_de_post := post_code.toList.take 2 = ['D', '-'] ||
        (strIsDigit post_code && post_code.length = 5)
      let aBlock :=
        if existsEmpty (alget invoice.header "BT-40") && is_de_post then
          [make_patch "header" "BT-40" (.str "DE") "derived" "derived"
            "Derived country code from seller post code"
            "R-HDR-COUNTRY-SELLER-POST-001" Option.none bt38.evidence]
        else []
      let bBlock :=
        if existsEmpty (alget invoice.header "BT-39") then
          match de_subdivision_from_postcode bt38.value with
          | some sub =>
            if sub ≠ "" then
              [make_patch "header" "BT-39" (.str sub) "derived" "derived"
                "Derived country subdivision from German seller post code"
                "R-HDR-SUBDIV-SELLER-POST-001" Option.none bt38.evidence]
            else []
          | Option.none => []
        else []
      aBlock ++ bBlock
    else []
  | Option.none => []

def p2TaxRepBlock (invoice : CanonicalInvoice) : List Patch :=
  match alget invoice.header "BT-67" with
  | some bt67 =>
    if bt67.value.truthy && existsEmpty (alget invoice.header "BT-68") then
      match de_subdivision_from_postcode bt67.value with
      | some sub =>
        if sub ≠ "" then
          [make_patch "header" "BT-68" (.str sub) "derived" "derived"
            "Derived country subdivision from German tax representative post code"
            "R-HDR-SUBDIV-TAXREP-POST-001" Option.none bt67.evidence]
        else []
      | Option.none => []
    else []
  | Option.none => []

def p2DeliveryBlock (invoice : CanonicalInvoice) : List Patch :=
  match alget invoice.header "BT-78" with
  | some bt78 =>
    if bt78.value.truthy then
      let post_code := pyStrip (pyStr bt78.value)
      let aBlock :=
        if existsEmpty (alget invoice.header "BT-80") then
          if post_code.toList.take 2 = ['D', '-'] ||
              (strIsDigit post_code && post_code.length = 5) then
            [make_patch "header" "BT-80" (.str "DE") "derived" "derived"
              "Derived country code from delivery post code"
              "R-HDR-COUNTRY-DELIVERY-POST-001" Option.none bt78.evidence]
          else []
        else []
      let bBlock :=
        if existsEmpty (alget invoice.header "BT-79") then
          match de_subdivision_from_postcode bt78.value with
          | some sub =>
            if sub ≠ "" then
              [make_patch "header" "BT-79" (.str sub) "derived" "derived"
                "Derived country subdivision from German delivery post code"
                "R-HDR-SUBDIV-DELIVERY-POST-001" Option.none bt78.evidence]
            else []
          | Option.none => []
        else []
      aBlock ++ bBlock
    else []
  | Option.none => []

def p2SkontoBlock (invoice : CanonicalInvoice) : List Patch :=
  match alget invoice.header "BT-20", alget invoice.header "BT-81" with
  | some bt20, some bt81 =>
    if bt20.value.truthy && bt81.value.truthy &&
        anyInstantToken (pyStr bt81.value) then
      let terms_text := pyReplace (pyStr bt20.value) "," "."
      let skonto_percent :=
        match skontoPercentSearch terms_text.toList with
        | some g => parse_decimal (.str g)
        | Option.none => Option.none
      let skonto_amount :=
        match skontoAmountSearch terms_text.toList with
        | some g => parse_decimal (.str g)
        | Option.none => Option.none
      let pBlock :=
        match skonto_percent with
        | some p =>
          if existsEmpty (alget invoice.totals "BT-94") then
            [make_patch "totals" "BT-94" (.str (formatQ2 p)) "derived"
              "derived" "Skonto percentage from payment terms"
              "R-PAY-SKONTO-007" Option.none bt20.evidence]
          else []
        | Option.none => []
      let aBlock :=
        match skonto_amount with
        | some a =>
          if existsEmpty (alget invoice.totals "BT-92") then
            [make_patch "totals" "BT-92" (.str (formatQ2 a)) "derived"
              "derived" "Skonto amount from payment terms"
              "R-PAY-SKONTO-008" Option.none bt20.evidence] ++
            (if existsEmpty (alget invoice.totals "BT-107") then
              [make_patch "totals" "BT-107" (.str (formatQ2 a)) "derived"
                "derived" "Sum of document-level allowances"
                "R-TOT-ALLOW-001" Option.none bt20.evidence]
            else [])
          else []
        | Option.none => []
      pBlock ++ aBlock
    else []
  | _, _ => []

def p2VatCatBlock (invoice : CanonicalInvoice) : List Patch :=
  invoice.lines.flatMap (fun line =>
  let bt152 := alget line.bt "BT-152"
  let rate := parseOfTruthy bt152
  match alget line.bt "BT-151", rate with
  | some bt151, some r =>
    if !bt151.value.truthy then
      [make_patch "line" "BT-151" (.str (if r > 0 then "S" else "Z"))
        "derived" "derived" "Derived VAT category from rate"
        "R-LINE-VATCAT-001" (some line.lineId)
        (match bt152 with
         | some b => b.evidence
         | Option.none => Option.none)]
    else []
  | _, _ => [])

def p2LineNetBlock (invoice : CanonicalInvoice) : List Patch :=
  invoice.lines.flatMap (fun line =>
  match alget line.bt "BT-131" with
  | some bt131 =>
    if bt131.value.truthy then []
    else
      let qty := parseOfRecord (alget line.bt "BT-129")
      let unit_price := parseOfRecord (alget line.bt "BT-146")
      let discount_pct := parseOfRecord (alget line.bt "BT-138")
      match qty, unit_price with
      | some q, some up =>
        let base := up * q
        let line_total := pyRound2 (match discount_pct with
          | some d => base * (1 - d / 100)
          | Option.none => base)
        [make_patch "line" "BT-131" (.str (formatQ2 line_total)) "derived"
          "derived" "BT-146 * BT-129 * (1 - BT-138%)" "R-LINE-NET-001"
          (some line.lineId)]
      | _, _ => []
  | Option.none => [])

def p2SumBlock (invoice : CanonicalInvoice) : List Patch :=
  let line_net_values := invoice.lines.filterMap (fun line =>
    match parseOfRecord (alget line.bt "BT-131") with
    | some v =>
      let has_discount := parseOfRecord (alget line.bt "BT-138")
      let allowance := parseOfRecord (alget line.bt "BT-147")
      some (match has_discount, allowance with
        | Option.none, some a => v - a
        | _, _ => v)
    | Option.none => Option.none)
  if line_net_values ≠ [] then
    let total := pyRound2 line_net_values.sum
    if existsEmpty (alget invoice.totals "BT-106") then
      [make_patch "totals" "BT-106" (.str (formatQ2 total)) "derived"
        "derived" "Sum of line net amounts (line allowances applied)"
        "R-TOT-SUMS-001"]
    else []
  else []

def p2ChargeSumBlock (invoice : CanonicalInvoice) : List Patch :=
  let charge_amount := parseOfTruthy (alget invoice.totals "BT-99")
  match charge_amount with
  | some c =>
    if existsEmpty (alget invoice.totals "BT-108") then
      [make_patch "totals" "BT-108" (.str (formatQ2 c)) "derived" "derived"
        "Derived from document charge amount" "R-TOT-SUMS-002"]
    else []
  | Option.none => []

def p2AllowSumBlock (invoice : CanonicalInvoice) : List Patch :=
  let allowance_amount := parseOfTruthy (alget invoice.totals "BT-92")
  match allowance_amount with
  | some a =>
    if existsEmpty (alget invoice.totals "BT-107") then
      [make_patch "totals" "BT-107" (.str (formatQ2 a)) "derived" "derived"
        "Derived from document allowance amount" "R-TOT-SUMS-003"]
    else []
  | Option.none => []

def p2CurrencyDedupBlock (invoice : CanonicalInvoice) : List Patch :=
  match alget invoice.header "BT-5" with
  | some bt5 =>
    match bt5.value with
    | .str s =>
      if s ≠ "" then
        match pySplitWs (pyStrip s) with
        | t0 :: t1 :: _ =>
          if t0 = t1 then
            [make_patch "header" "BT-5" (.str t0) "corrected" "rule"
              "Removed duplicate currency token" "R-HDR-CURRENCY-DEDUP-001"
              Option.none bt5.evidence]
          else []
        | _ => []
      else []
    | _ => []
  | Option.none => []

def p2DateDedupBlock (invoice : CanonicalInvoice) : List Patch :=
  match alget invoice.header "BT-72" with
  | some bt72 =>
    match bt72.value with
    | .str s =>
      if s ≠ "" then
        match pySplitWs (pyStrip s) with
        | t0 :: t1 :: _ =>
          if t0 = t1 then
            [make_patch "header" "BT-72" (.str t0) "corrected" "rule"
              "Removed duplicate date token" "R-HDR-DATE-DEDUP-001"
              Option.none bt72.evidence]
          else []
        | _ => []
      else []
    | _ => []
  | Option.none => []

def p2GrandABlock (invoice : CanonicalInvoice) : List Patch :=
  let bt106_val := parseOfRecord (alget invoice.totals "BT-106")
  let bt107_val : Option ℚ :=
    match alget invoice.totals "BT-107" with
    | some r => parse_decimal r.value
    | Option.none => some 0
  let bt108_val : Option ℚ :=
    match alget invoice.totals "BT-108" with
    | some r => parse_decimal r.value
    | Option.none => some 0
  match bt106_val with
  | some v106 =>
    if existsEmpty (alget invoice.totals "BT-109") then
      let total_without_vat :=
        pyRound2 (v106 - orZero bt107_val + orZero bt108_val)
      [make_patch "totals" "BT-109" (.str (formatQ2 total_without_vat))
        "derived" "derived" "BT-106 - BT-107 + BT-108" "R-TOT-GRAND-001"]
    else []
  | Option.none => []

def p2GrandBBlock (invoice : CanonicalInvoice) : List Patch :=
  let bt109_val := parseOfTruthy (alget invoice.totals "BT-109")
  let bt110_val := parseOfTruthy (alget invoice.totals "BT-110")
  match bt109_val, bt110_val with
  | some v109, some v110 =>
    if existsEmpty (alget invoice.totals "BT-112") then
      [make_patch "totals" "BT-112" (.str (formatQ2 (pyRound2 (v109 + v110))))
        "derived" "derived" "BT-109 + BT-110" "R-TOT-GRAND-002"]
    else []
  | _, _ => []

def p2GrandCBlock (invoice : CanonicalInvoice) : List Patch :=
  let bt109_val := parseOfTruthy (alget invoice.totals "BT-109")
  let bt112_val := parseOfTruthy (alget invoice.totals "BT-112")
  match bt112_val, bt109_val with
  | some v112, some v109 =>
    if existsEmpty (alget invoice.totals "BT-110") then
      [make_patch "totals" "BT-110" (.str (formatQ2 (pyRound2 (v112 - v109))))
        "derived" "derived" "BT-112 - BT-109" "R-TOT-GRAND-003"]
    else []
  | _, _ => []

def p2GrandDBlock (invoice : CanonicalInvoice) : List Patch :=
  let bt107_val : Option ℚ :=
    match alget invoice.totals "BT-107" with
    | some r => parse_decimal r.value
    | Option.none => some 0
  let bt112_val := parseOfTruthy (alget invoice.totals "BT-112")
  let bt113_val := parseOfTruthy (alget invoice.totals "BT-113")
  match bt112_val, bt113_val with
  | some v112, some v113 =>
    if existsEmpty (alget invoice.totals "BT-115") then
      [make_patch "totals" "BT-115"
        (.str (formatQ2 (pyRound2 (v112 - v113 - orZero bt107_val))))
        "derived" "derived" "BT-112 - BT-113 - BT-107" "R-TOT-GRAND-005"]
    else []
  | _, _ => []

def p2VatFromRateBlock (invoice : CanonicalInvoice) : List Patch :=
  let bt109_val := parseOfTruthy (alget invoice.totals "BT-109")
  match bt109_val with
  | some v109 =>
    if existsEmpty (alget invoice.totals "BT-110") then
      let vat_rate_values := invoice.lines.filterMap (fun line =>
        parseOfRecord (alget line.bt "BT-152"))
      if vat_rate_values ≠ [] then
        match (vat_rate_values.map pyRound2).dedup with
        | [rate] =>
          [make_patch "totals" "BT-110"
            (.str (formatQ2 (pyRound2 (v109 * (rate / 100)))))
            "derived" "derived"
            ("BT-109 * " ++ formatQ2 rate ++ "%") "R-TOT-VAT-001"]
        | _ => []
      else []
    else []
  | Option.none => []

def p2TaxableBlock (invoice : CanonicalInvoice) : List Patch :=
  let bt106_val := parseOfRecord (alget invoice.totals "BT-106")
  let bt107_val : Option ℚ :=
    match alget invoice.totals "BT-107" with
    | some r => parse_decimal r.value
    | Option.none => some 0
  let bt108_val : Option ℚ :=
    match alget invoice.totals "BT-108" with
    | some r => parse_decimal r.value
    | Option.none => some 0
  let bt109_val := parseOfTruthy (alget invoice.totals "BT-109")
  let taxable : Option ℚ :=
    match bt109_val with
    | some v => some v
    | Option.none =>
      match bt106_val with
      | some v106 => some (pyRound2 (v106 - orZero bt107_val + orZero bt108_val))
      | Option.none => Option.none
  match taxable with
  | some t =>
    if existsEmpty (alget invoice.totals "BT-116") then
      let categories := (invoice.lines.filterMap (fun line =>
        match alget line.bt "BT-151" with
        | some r => if r.value.truthy then some r.value else Option.none
        | Option.none => Option.none)).dedup
      if categories.length ≤ 1 then
        [make_patch "totals" "BT-116" (.str (formatQ2 t)) "derived"
          "derived"
          "Taxable amount from total without VAT (single VAT category)"
          "R-TOT-TAXABLE-001"]
      else []
    else []
  | Option.none => []

/-- From `rules_engine.py`: `phase2_derive` — the deterministic derivation
phase (gap filling plus the duplicate-token cleanups for BT-5/BT-72); the
rule blocks appear in source order. -/
def phase2_derive (invoice : CanonicalInvoice) : List Patch :=
  p2LineIdBlock invoice ++ p2BuyerBlock invoice ++ p2SellerBlock invoice ++ p2TaxRepBlock invoice ++ p2DeliveryBlock invoice ++
    p2SkontoBlock invoice ++ p2VatCatBlock invoice ++ p2LineNetBlock invoice ++ p2SumBlock invoice ++
    p2ChargeSumBlock invoice ++ p2AllowSumBlock invoice ++ p2CurrencyDedupBlock invoice ++ p2DateDedupBlock invoice ++
    p2GrandABlock invoice ++ p2GrandBBlock invoice ++ p2GrandCBlock invoice ++ p2GrandDBlock invoice ++
    p2VatFromRateBlock invoice ++ p2TaxableBlock invoice


/-- Parsed line net amounts (`line_net_values` of `phase3_validate`). -/
def lineNets (invoice : CanonicalInvoice) : List ℚ :=
  invoice.lines.filterMap (fun line => parseOfRecord (alget line.bt "BT-131"))

/-- Line-sum check of `phase3_validate` (BT-106 vs the sum of BT-131). -/
def p3LineSumBlock (invoice : CanonicalInvoice) : List Patch :=
  let bt106_val := parseOfRecord (alget invoice.totals "BT-106")
  let line_net_values := lineNets invoice
  if line_net_values ≠ [] then
    let computed := pyRound2 line_net_values.sum
    match bt106_val with
    | some v106 =>
      if |v106 - computed| > TOLERANCE then
        match alget invoice.totals "BT-106" with
        | some _ =>
          [make_patch "totals" "BT-106" (.str (formatQ2 computed))
            "wrong_math" "rule" "Sum of line net amounts (BT-131)"
            "R-TOT-CHECK-004"]
        | Option.none => []
      else []
    | Option.none => []
  else []

def p3NetTotalBlock (invoice : CanonicalInvoice) : List Patch :=
  let bt106_val := parseOfRecord (alget invoice.totals "BT-106")
  let bt107_val : Option ℚ :=
    match alget invoice.totals "BT-107" with
    | some r => parse_decimal r.value
    | Option.none => some 0
  let bt108_val : Option ℚ :=
    match alget invoice.totals "BT-108" with
    | some r => parse_decimal r.value
    | Option.none => some 0
  let bt109 := alget invoice.totals "BT-109"
  let bt109_val := parseOfTruthy bt109
  match bt106_val with
  | some v106 =>
    let computed := pyRound2 (v106 - orZero bt107_val + orZero bt108_val)
    match bt109_val with
    | some v109 =>
      if |v109 - computed| > TOLERANCE && bt109.isSome then
        [make_patch "totals" "BT-109" (.str (formatQ2 computed))
          "wrong_math" "rule" "BT-106 - BT-107 + BT-108" "R-TOT-CHECK-001"]
      else []
    | Option.none => []
  | Option.none => []

def p3GrossBlock (invoice : CanonicalInvoice) : List Patch :=
  let bt109 := alget invoice.totals "BT-109"
  let bt110 := alget invoice.totals "BT-110"
  let bt112 := alget invoice.totals "BT-112"
  let bt109_val := parseOfTruthy bt109
  let bt110_val := parseOfTruthy bt110
  let bt112_val := parseOfTruthy bt112
  match bt109_val, bt110_val with
  | some v109, some v110 =>
    let computed := pyRound2 (v109 + v110)
    match bt112_val with
    | some v112 =>
      if |v112 - computed| > TOLERANCE && bt112.isSome then
        [make_patch "totals" "BT-112" (.str (formatQ2 computed))
          "wrong_math" "rule" "BT-109 + BT-110" "R-TOT-CHECK-002"]
      else []
    | Option.none => []
  | _, _ => []

def p3DueBlock (invoice : CanonicalInvoice) : List Patch :=
  let bt107_val : Option ℚ :=
    match alget invoice.totals "BT-107" with
    | some r => parse_decimal r.value
    | Option.none => some 0
  let bt112 := alget invoice.totals "BT-112"
  let bt113 := alget invoice.totals "BT-113"
  let bt115 := alget invoice.totals "BT-115"
  let bt112_val := parseOfTruthy bt112
  let bt113_val := parseOfTruthy bt113
  match bt112_val, bt113_val with
  | some v112, some v113 =>
    let computed := pyRound2 (v112 - v113 - orZero bt107_val)
    match bt115 with
    | some r115 =>
      if r115.value.truthy then
        match parse_decimal r115.value with
        | some v115 =>
          if |v115 - computed| > TOLERANCE then
            [make_patch "totals" "BT-115" (.str (formatQ2 computed))
              "wrong_math" "rule" "BT-112 - BT-113 - BT-107"
              "R-TOT-CHECK-003"]
          else []
        | Option.none => []
      else []
    | Option.none => []
  | _, _ => []

def p3TaxableBlock (invoice : CanonicalInvoice) : List Patch :=
  let bt116_val := parseOfRecord (alget invoice.totals "BT-116")
  let bt109 := alget invoice.totals "BT-109"
  let bt109_val := parseOfTruthy bt109
  match bt116_val, bt109_val with
  | some v116, some v109 =>
    let categories := (invoice.lines.filterMap (fun line =>
      match alget line.bt "BT-151" with
      | some r => if r.value.truthy then some r.value else Option.none
      | Option.none => Option.none)).dedup
    if categories.length ≤ 1 && |v116 - v109| > TOLERANCE then
      match alget invoice.totals "BT-116" with
      | some _ =>
        [make_patch "totals" "BT-116" (.str (formatQ2 v109)) "wrong_math"
          "rule"
          "Taxable amount equals total without VAT (single VAT category)"
          "R-TOT-CHECK-005"]
      | Option.none => []
    else []
  | _, _ => []

/-- From `rules_engine.py`: `phase3_validate` — re-derives the grand-total
relationships and overwrites stored values deviating by more than
`TOLERANCE`, with status `wrong_math`; the checks appear in source order. -/
def phase3_validate (invoice : CanonicalInvoice) : List Patch :=
  p3LineSumBlock invoice ++ p3NetTotalBlock invoice ++ p3GrossBlock invoice ++ p3DueBlock invoice ++ p3TaxableBlock invoice


/-- Python `token.strip("%")`. -/
def stripPct (s : String) : String :=
  String.mk (((s.toList.dropWhile (· = '%')).reverse.dropWhile (· = '%')).reverse)

/-- From `phase4_resolve`: `_find_amount_after(label)` — first text line
containing the label (case-insensitive); the amount is the last `:`-part (or
the line with the label removed), falling back to the following line. -/
def find_amount_after (label : String) : List String → Option ℚ
  | [] => Option.none
  | line :: rest =>
    if containsSub (pyLower line) (pyLower label) then
      let parts := splitOnChar ':' line
      let amount_text :=
        if parts.length > 1 then parts.getLastD ""
        else pyReplace line label ""
      match parse_decimal (.str amount_text) with
      | some a => some a
      | Option.none =>
        match rest with
        | nxt :: _ => parse_decimal (.str nxt)
        | [] => Option.none
    else find_amount_after label rest

/-- Python float `or`: zero and `None` are falsy. -/
def pyOrQ (a b : Option ℚ) : Option ℚ :=
  match a with
  | some q => if q ≠ 0 then some q else b
  | Option.none => b

def optTruthy : Option ℚ → Bool
  | some q => q ≠ 0
  | Option.none => false

/-- Case-insensitive `\bword\b` search (the charge-label regexes). -/
def wordAtCI (w : List Char) (l : List Char) : Bool :=
  (l.take w.length).map lowerChar = w && boundaryAfter (l.drop w.length)

def containsWordCIAux (w : List Char) : Option Char → List Char → Bool
  | _, [] => false
  | prev, c :: cs =>
    (boundaryBefore prev && wordAtCI w (c :: cs)) ||
      containsWordCIAux w (some c) cs

def containsWordCI (w : String) (s : String) : Bool :=
  containsWordCIAux (pyLower w).toList Option.none s.toList

/-- The fixed charge-label patterns of `phase4_resolve`. -/
def charge_patterns : List String :=
  ["versandkosten", "porto", "shipping", "delivery charge", "freight"]

/-- One step of the charge-detection loop: seen-line dedup, skip lines with
`versandart` or `%`, match a charge label, parse the amount from the last
`:`-part or the following line, and collect evidence snippets. -/
def chargeScan : List String → List String → List ℚ → List String →
    (List ℚ × List String)
  | [], _, amounts, snippets => (amounts, snippets)
  | line :: rest, seen, amounts, snippets =>
    let normalized_line := String.intercalate " " (pySplitWs (pyLower line))
    if seen.contains normalized_line then
      chargeScan rest seen amounts snippets
    else
      let seen := seen ++ [normalized_line]
      if containsSub (pyLower line) "versandart" then
        chargeScan rest seen amounts snippets
      else if containsSub line "%" then
        chargeScan rest seen amounts snippets
      else if !(charge_patterns.any (fun p => containsWordCI p line)) then
        chargeScan rest seen amounts snippets
      else
        let parts := splitOnChar ':' line
        let amount_text := if parts.length > 1 then parts.getLastD "" else line
        match parse_decimal (.str amount_text) with
        | some a =>
          let snippets :=
            if snippets.contains line then snippets else snippets ++ [line]
          chargeScan rest seen (amounts ++ [a]) snippets
        | Option.none =>
          match rest with
          | nxt :: _ =>
            match parse_decimal (.str nxt) with
            | some a =>
              let snippets := snippets ++ [line ++ " " ++ nxt]
              let snippets :=
                if snippets.contains line then snippets else snippets ++ [line]
              chargeScan rest seen (amounts ++ [a]) snippets
            | Option.none => chargeScan rest seen amounts snippets
          | [] => chargeScan rest seen amounts snippets

/-- Last `vat_rate` assigned by the `mwst`/`vat` scan (inner loop breaks at
the first `%`-suffixed token; the outer loop keeps overwriting). -/
def vatRateScan : Option ℚ → List String → Option ℚ
  | cur, [] => cur
  | cur, line :: rest =>
    if containsSub (pyLower line) "mwst" || containsSub (pyLower line) "vat" then
      match (pySplitWs (pyReplace line "," ".")).find?
          (fun tok => tok.toList.getLast? = some '%') with
      | some tok => vatRateScan (parse_decimal (.str (stripPct tok))) rest
      | Option.none => vatRateScan cur rest
    else vatRateScan cur rest

/-! The Skonto regexes of `phase4_resolve` are written with doubled
backslashes inside raw strings (`r"(\\d+(?:\\.\\d+)?)\\s*%\\s*skonto"` and
`r"\\(([-\\d\\.]+)\\s*(?:eur|€)?\\)"`), so `\\` matches a literal backslash
and `d`/`s` are literal letters: they can only match text containing literal
backslash characters.  They are embedded exactly as written. -/

def isDChar (c : Char) : Bool := c = 'd' || c = 'D'

def isSChar (c : Char) : Bool := c = 's' || c = 'S'

/-- `s*`-run followed by `skonto` (case-insensitive): the literal `s` run
overlaps with the leading `s` of `skonto`, so the regex backtracks over the
run length. -/
def sRunThenSkonto (l : List Char) : Bool :=
  let m := (l.takeWhile isSChar).length
  (List.range (m + 1)).any (fun k => (matchPrefixCI "skonto" (l.drop k)).isSome)

/-- Tail `\\s*%\\s*skonto` of the phase-4 percent pattern: a literal
backslash, a run of `s`/`S`, `%`, a literal backslash, a run of `s`/`S`,
then `skonto` (case-insensitive). -/
def brokenPercentTail (l : List Char) : Bool :=
  match l with
  | '\\' :: l1 =>
    (match l1.dropWhile isSChar with
     | '%' :: '\\' :: l3 => sRunThenSkonto l3
     | _ => false)
  | _ => false

/-- Match of the phase-4 percent pattern at one position, returning the
captured group `\\d+(?:\\.\\d+)?` (which must itself contain literal
backslashes). -/
def brokenPercentAt (l : List Char) : Option (List Char) :=
  match l with
  | '\\' :: r1 =>
    let ds := r1.takeWhile isDChar
    let r2 := r1.drop ds.length
    if ds.isEmpty then Option.none
    else
      let withOpt : Option (List Char × List Char) :=
        match r2 with
        | '\\' :: x :: '\\' :: r3 =>
          if x ≠ '\n' then
            let ds2 := r3.takeWhile isDChar
            let r4 := r3.drop ds2.length
            if ds2.isEmpty then Option.none
            else some ('\\' :: x :: '\\' :: ds2, r4)
          else Option.none
        | _ => Option.none
      match withOpt with
      | some (opt, r4) =>
        if brokenPercentTail r4 then some ('\\' :: (ds ++ opt))
        else if brokenPercentTail r2 then some ('\\' :: ds)
        else Option.none
      | Option.none =>
        if brokenPercentTail r2 then some ('\\' :: ds) else Option.none
  | _ => Option.none

def brokenSkontoPercentSearch : List Char → Option String
  | [] => Option.none
  | c :: cs =>
    match brokenPercentAt (c :: cs) with
    | some g => some (String.mk g)
    | Option.none => brokenSkontoPercentSearch cs

/-- Continuation `\\s*(?:eur|€)?\\` of the phase-4 amount pattern after the
class run: a literal backslash, a run of `s`/`S`, an optional `eur`/`€`,
then a literal backslash.  Returns the consumed characters. -/
def brokenAmountCont (l : List Char) : Option (List Char) :=
  match l with
  | '\\' :: r3 =>
    let sp := r3.takeWhile isSChar
    let r4 := r3.drop sp.length
    let withEur : Option (List Char × List Char) :=
      match matchPrefixCI "eur" r4 with
      | some r5 => some (r4.take 3, r5)
      | Option.none =>
        match r4 with
        | '€' :: r5 => some (['€'], r5)
        | _ => Option.none
    (match withEur with
     | some (eurChars, r5) =>
       (match r5 with
        | '\\' :: _ => some ('\\' :: sp ++ eurChars ++ ['\\'])
        | _ =>
          match r4 with
          | '\\' :: _ => some ('\\' :: sp ++ ['\\'])
          | _ => Option.none)
     | Option.none =>
       match r4 with
       | '\\' :: _ => some ('\\' :: sp ++ ['\\'])
       | _ => Option.none)
  | _ => Option.none

/-- Backtracking over the greedy class run `[-\\d\\.]+` of the phase-4
amount pattern (the class contains the backslash, which the continuation
also needs). -/
def brokenAmountTryLens : ℕ → List Char → List Char → Option (List Char)
  | 0, _, _ => Option.none
  | fuel + 1, run, r1 =>
    match run with
    | [] => Option.none
    | _ =>
      match brokenAmountCont (r1.drop run.length) with
      | some cont => some (run ++ cont)
      | Option.none => brokenAmountTryLens fuel run.dropLast r1

def brokenAmountAt (l : List Char) : Option (List Char) :=
  match l with
  | '\\' :: r1 =>
    let run := r1.takeWhile
      (fun c => c = '-' || c = '\\' || isDChar c || c = '.')
    if run.isEmpty then Option.none
    else brokenAmountTryLens (run.length + 1) run r1
  | _ => Option.none

def brokenSkontoAmountSearch : List Char → Option String
  | [] => Option.none
  | c :: cs =>
    match brokenAmountAt (c :: cs) with
    | some g => some (String.mk g)
    | Option.none => brokenSkontoAmountSearch cs

/-- From `rules_engine.py`: `_extract_days_from_text` — an all-digit text is
the day count, else the maximum over `(\d+)\s*Tage` matches. -/
def extract_days_from_text (text : String) : Option ℤ :=
  let stripped := pyStrip text
  if strIsDigit stripped then some (digitsToNat stripped.toList : ℤ)
  else
    let ms := daysFindAux text.toList.length text.toList
    if ms = [] then Option.none
    else some ((ms.map digitsToNat).foldl max 0 : ℤ)

/-- From `rules_engine.py`: `_add_days` — ISO date plus a day count, `None`
when `strptime` rejects the text. -/
def add_days (iso_date : String) (days : ℤ) : Option String :=
  match parseIsoDate iso_date with
  | Option.none => Option.none
  | some dt => some (dateIso (dateAddDays dt days))

/-- Python `max` over a string list (lexicographic). -/
def maxString (l : List String) : String := l.foldl max ""

/-- Python `str(float)` for a value known to be a float (always rendered
with a decimal point). -/
def pyFloatStr (q : ℚ) : String :=
  let sign := if q < 0 then "-" else ""
  let a := q.num.natAbs
  let b := q.den
  let frac := if b = 1 then "0" else
    (let f := fracDigitsAux 64 (a % b) b
     if f = "" then "0" else f)
  sign ++ toString (a / b) ++ "." ++ frac

/-- The `for line in lines_list` Skonto loop of `phase4_resolve`: the first
line containing `skonto` on which the (broken) percent pattern matches wins;
lines without a match leave the current value. -/
def skontoLineScan : Option ℚ → List String → Option ℚ
  | cur, [] => cur
  | cur, line :: rest =>
    if containsSub (pyLower line) "skonto" then
      match brokenSkontoPercentSearch (pyReplace line "," ".").toList with
      | some g => parse_decimal (.str g)
      | Option.none => skontoLineScan cur rest
    else skontoLineScan cur rest

set_option maxHeartbeats 2000000 in
/-- From `rules_engine.py`: `phase4_resolve` (ambiguity resolution), with
`datetime.utcnow().date()` made an explicit `today` parameter.  Where the
source would raise a `TypeError` on an unparseable stored amount (e.g.
`total_with_vat - parse_decimal(...)` with a `None` operand), the model
substitutes 0; no claim exercises those inputs. -/
def phase4_resolve (today : PyDate) (invoice : CanonicalInvoice) :
    List Patch :=
  let content := invoice.raw.content
  let lines_list := (pySplitLines content).filterMap (fun ln =>
    let s := pyStrip ln
    if s ≠ "" then some s else Option.none)
  let currencyBlock :=
    if existsEmpty (alget invoice.header "BT-5") &&
        (containsSub content "EUR" || containsSub content "€") then
      [make_patch "header" "BT-5" (.str "EUR") "corrected" "rule"
        "Detected currency token in full text" "R-HDR-CURRENCY-001"
        Option.none
        (some [("from", .str "full_text"), ("path", .str "analyzeResult.content")])]
    else []
  let bt31 := alget invoice.header "BT-31"
  let vat : Option String :=
    match bt31 with
    | some r => if r.value.truthy then normalize_vat_id r.value else Option.none
    | Option.none => Option.none
  let sellerCountryBlock :=
    match alget invoice.header "BT-40", vat with
    | some bt40, some v =>
      if v ≠ "" && v.length ≥ 2 &&
          strNeVal (String.mk (v.toList.take 2)) bt40.value then
        [make_patch "header" "BT-40" (.str (String.mk (v.toList.take 2)))
          "corrected" "rule" "Derived from seller VAT prefix"
          "R-HDR-COUNTRY-SELLER-001" Option.none
          (match bt31 with
           | some r => r.evidence
           | Option.none => Option.none)]
      else []
    | _, _ => []
  let bt112extractBlock :=
    if existsEmpty (alget invoice.totals "BT-112") then
      match pyOrQ (find_amount_after "Gesamtbetrag in EUR" lines_list)
          (find_amount_after "Gesamtbetrag" lines_list) with
      | some t =>
        [make_patch "totals" "BT-112" (.str (formatQ2 t)) "corrected" "rule"
          "Extracted total with VAT from totals block" "R-TOT-EXTRACT-001"
          Option.none
          (some [("from", .str "full_text_totals"),
                 ("path", .str "analyzeResult.content")])]
      | Option.none => []
    else []
  let scanned := chargeScan lines_list [] [] []
  let charge_amounts := scanned.1
  let evidence_snippets := scanned.2
  let chargesBlock :=
    if charge_amounts ≠ [] then
      let total_charges := pyRound2 charge_amounts.sum
      [make_patch "totals" "BT-99" (.str (formatQ2 total_charges)) "corrected"
        "rule" "Summed document-level charges from totals section"
        "R-TOT-CHARGE-003" Option.none
        (some [("from", .str "full_text_totals"),
               ("snippet", .str (String.intercalate " | " evidence_snippets)),
               ("path", .str "analyzeResult.content")])] ++
      (if existsEmpty (alget invoice.totals "BT-100") then
        [make_patch "totals" "BT-100" (.str (formatQ2 total_charges))
          "derived" "derived" "Charge base set to charge amount"
          "R-TOT-CHARGE-004"]
      else []) ++
      (if existsEmpty (alget invoice.totals "BT-102") then
        [make_patch "totals" "BT-102" (.str "S") "derived" "derived"
          "Standard VAT category for charges" "R-TOT-CHARGE-005"]
      else []) ++
      (if existsEmpty (alget invoice.totals "BT-103") then
        match vatRateScan Option.none lines_list with
        | some vr =>
          [make_patch "totals" "BT-103" (.str (formatQ2 vr)) "derived"
            "derived" "Detected VAT rate in totals" "R-TOT-CHARGE-006"]
        | Option.none => []
      else []) ++
      (if existsEmpty (alget invoice.totals "BT-104") && evidence_snippets ≠ [] then
        [make_patch "totals" "BT-104"
          (.str ((splitOnChar ':' (evidence_snippets.headD "")).headD ""))
          "derived" "derived" "Charge reason from totals label"
          "R-TOT-CHARGE-007"]
      else []) ++
      (if existsEmpty (alget invoice.totals "BT-108") then
        [make_patch "totals" "BT-108" (.str (formatQ2 total_charges))
          "derived" "derived" "Sum of document-level charges"
          "R-TOT-CHARGE-008"]
      else [])
    else []
  let bt81 := alget invoice.header "BT-81"
  let bt2 := alget invoice.header "BT-2"
  let bt9 := alget invoice.header "BT-9"
  let bt20 := alget invoice.header "BT-20"
  let bt112 := alget invoice.totals "BT-112"
  let bt113 := alget invoice.totals "BT-113"
  let bt115 := alget invoice.totals "BT-115"
  let bt92 := alget invoice.totals "BT-92"
  let bt94 := alget invoice.totals "BT-94"
  let bt93 := alget invoice.totals "BT-93"
  let bt97 := alget invoice.totals "BT-97"
  let bt98 := alget invoice.totals "BT-98"
  let bt107 := alget invoice.totals "BT-107"
  let content_lower := pyLower content
  let instant1 :=
    match bt81 with
    | some r => r.value.truthy && anyInstantToken (pyStr r.value)
    | Option.none => false
  let instant2 := instant1 ||
    (match bt20 with
     | some r => r.value.truthy && anyInstantToken (pyStr r.value)
     | Option.none => false)
  let contentInstant := instant_tokens.any (fun t => containsSub content_lower t)
  let instant_payment := instant2 || contentInstant
  let backfillBlock :=
    if !instant2 && contentInstant then
      if existsEmpty bt81 then
        if containsSub content_lower "vorkasse" then
          [make_patch "header" "BT-81" (.str "Vorkasse") "derived" "derived"
            "Detected payment means in full text" "R-HDR-PAYMEANS-LOCAL-001"
            Option.none
            (some [("from", .str "full_text"),
                   ("path", .str "analyzeResult.content")])]
        else if containsSub content_lower "paypal" then
          [make_patch "header" "BT-81" (.str "PayPal") "derived" "derived"
            "Detected payment means in full text" "R-HDR-PAYMEANS-LOCAL-002"
            Option.none
            (some [("from", .str "full_text"),
                   ("path", .str "analyzeResult.content")])]
        else if containsSub content_lower "kreditkarte" ||
            containsSub content_lower "credit card" then
          [make_patch "header" "BT-81" (.str "Credit card") "derived"
            "derived" "Detected payment means in full text"
            "R-HDR-PAYMEANS-LOCAL-003" Option.none
            (some [("from", .str "full_text"),
                   ("path", .str "analyzeResult.content")])]
        else []
      else []
    else []
  let dueFromBT9Block :=
    match bt9 with
    | some r9 =>
      let existing_text := if r9.value.truthy then pyStr r9.value else ""
      let dates := extract_dates_from_text existing_text
      if dates ≠ [] then
        let latest := maxString dates
        if strNeVal latest r9.value then
          [make_patch "header" "BT-9" (.str latest) "corrected" "rule"
            "Selected latest payment due date" "R-HDR-DUEDATE-002"
            Option.none r9.evidence]
        else []
      else
        match extract_days_from_text existing_text with
        | some d =>
          if d ≠ 0 && existsTruthy bt2 then
            match bt2 with
            | some r2 =>
              match add_days (pyStr r2.value) d with
              | some due =>
                if strNeVal due r9.value then
                  [make_patch "header" "BT-9" (.str due) "derived" "derived"
                    ("Invoice date + " ++ toString d ++ " days")
                    "R-HDR-DUEDATE-003" Option.none r9.evidence]
                else []
              | Option.none => []
            | Option.none => []
          else []
        | Option.none => []
    | Option.none => []
  let dueFromBT20Block :=
    if existsEmpty bt9 then
      match bt20 with
      | some r20 =>
        if r20.value.truthy then
          let terms_text := pyStr r20.value
          let dates := extract_dates_from_text terms_text
          if dates ≠ [] then
            [make_patch "header" "BT-9" (.str (maxString dates)) "derived"
              "derived" "Derived due date from payment terms (latest date)"
              "R-HDR-DUEDATE-004" Option.none r20.evidence]
          else
            match extract_days_from_text terms_text with
            | some d =>
              if d ≠ 0 && existsTruthy bt2 then
                match bt2 with
                | some r2 =>
                  match add_days (pyStr r2.value) d with
                  | some due =>
                    if due ≠ "" then
                      [make_patch "header" "BT-9" (.str due) "derived"
                        "derived"
                        ("Payment terms: invoice date + " ++ toString d ++ " days")
                        "R-HDR-DUEDATE-005" Option.none r20.evidence]
                    else []
                  | Option.none => []
                | Option.none => []
              else []
            | Option.none => []
        else []
      | Option.none => []
    else []
  let instantBlock :=
    if instant_payment then
      let dueDateInstant :=
        if existsEmpty bt9 && existsTruthy bt2 then
          match bt2 with
          | some r2 =>
            [make_patch "header" "BT-9" r2.value "derived" "derived"
              "Instant payment: due date equals invoice date"
              "R-HDR-DUEDATE-001"]
          | Option.none => []
        else []
      let total_with_vat : Option ℚ :=
        match parseOfTruthy bt112 with
        | some t => some t
        | Option.none =>
          pyOrQ (find_amount_after "Gesamtbetrag in EUR" lines_list)
            (find_amount_after "Gesamtbetrag" lines_list)
      let amount_after_skonto : Option ℚ :=
        pyOrQ (pyOrQ (find_amount_after "Gesamtbetrag abzgl. Skonto in EUR" lines_list)
            (find_amount_after "Gesamtbetrag abzgl. Skonto" lines_list))
          (find_amount_after "Gesamtbetrag abzl. Skonto" lines_list)
      let sp0 : Option ℚ :=
        match bt20 with
        | some r =>
          if r.value.truthy then
            match brokenSkontoPercentSearch
                (pyReplace (pyStr r.value) "," ".").toList with
            | some g => parse_decimal (.str g)
            | Option.none => Option.none
          else Option.none
        | Option.none => Option.none
      let sa0 : Option ℚ :=
        match bt20 with
        | some r =>
          if r.value.truthy then
            match brokenSkontoAmountSearch
                (pyReplace (pyStr r.value) "," ".").toList with
            | some g => parse_decimal (.str g)
            | Option.none => Option.none
          else Option.none
        | Option.none => Option.none
      let skonto_percent0 := skontoLineScan sp0 lines_list
      let allowance0 : Option ℚ :=
        match total_with_vat, amount_after_skonto with
        | some t, some a =>
          let alw := pyRound2 (t - a)
          if alw < 0 ∨ alw > t then Option.none else some alw
        | _, _ => Option.none
      let skonto_percent :=
        if allowance0.isSome && optTruthy total_with_vat &&
            skonto_percent0.isNone then
          match allowance0, total_with_vat with
          | some alw, some t => some (pyRound2 (alw / t * 100))
          | _, _ => skonto_percent0
        else skonto_percent0
      let allowance1 :=
        if allowance0.isNone && sa0.isSome then sa0 else allowance0
      let bt94Block :=
        match skonto_percent with
        | some p =>
          if existsEmpty bt94 then
            [make_patch "totals" "BT-94" (.str (formatQ2 p)) "derived"
              "derived" "Detected Skonto percentage in payment terms"
              "R-PAY-SKONTO-001"]
          else []
        | Option.none => []
      let bt92Block :=
        match bt92, total_with_vat with
        | some r92, some t =>
          let existing_allowance :=
            if r92.value.truthy then parse_decimal r92.value else Option.none
          let allowance2 :=
            if allowance1.isNone && skonto_percent.isSome then
              match skonto_percent with
              | some p => some (pyRound2 (t * (p / 100)))
              | Option.none => allowance1
            else allowance1
          (match allowance2 with
           | some alw =>
             if existing_allowance.isNone || existing_allowance = some 0 then
               [make_patch "totals" "BT-92" (.str (formatQ2 alw)) "derived"
                 "derived"
                 (if amount_after_skonto.isSome then
                   "BT-112 minus amount after Skonto"
                 else
                   "BT-112 * " ++
                     (match skonto_percent with
                      | some p => formatQ2 p
                      | Option.none => "None") ++ "% Skonto")
                 "R-PAY-SKONTO-002"]
             else []
           | Option.none => [])
        | _, _ => []
      let bt93Block :=
        if existsEmpty bt93 then
          match total_with_vat with
          | some t =>
            [make_patch "totals" "BT-93" (.str (formatQ2 t)) "derived"
              "derived" "Allowance base = total with VAT" "R-PAY-SKONTO-003"]
          | Option.none => []
        else []
      let bt97Block :=
        if existsEmpty bt97 then
          [make_patch "totals" "BT-97" (.str "Skonto") "derived" "derived"
            "Detected Skonto in payment terms" "R-PAY-SKONTO-004"]
        else []
      let bt98Block :=
        if existsEmpty bt98 then
          [make_patch "totals" "BT-98" (.str "SKONTO") "derived" "derived"
            "Allowance reason code placeholder for Skonto" "R-PAY-SKONTO-005"]
        else []
      let bt107Block :=
        if existsEmpty bt107 && existsTruthy bt92 then
          match bt92 with
          | some r92 =>
            [make_patch "totals" "BT-107" r92.value "derived" "derived"
              "Sum of document-level allowances" "R-TOT-ALLOW-001"]
          | Option.none => []
        else []
      let bt113Block :=
        match bt113, total_with_vat with
        | some r113, some t =>
          if (!r113.value.truthy || r113.status = "derived" ||
              r113.status = "wrong_math") then
            if amount_after_skonto.isSome then
              match amount_after_skonto with
              | some a =>
                [make_patch "totals" "BT-113" (.str (formatQ2 (pyRound2 a)))
                  "derived" "derived"
                  "Extracted amount after Skonto from totals block"
                  "R-HDR-PAID-004"]
              | Option.none => []
            else
              let av := match parseOfTruthy bt107 with
                | some q => q
                | Option.none => 0
              [make_patch "totals" "BT-113"
                (.str (formatQ2 (pyRound2 (t - av)))) "derived" "derived"
                "Instant payment: BT-112 - BT-107" "R-HDR-PAID-002"]
          else []
        | _, _ => []
      let bt115Block :=
        match bt115, total_with_vat with
        | some r115, some t =>
          if (!r115.value.truthy || r115.status = "derived" ||
              r115.status = "wrong_math") then
            let av := match parseOfTruthy bt107 with
              | some q => q
              | Option.none => 0
            let computed_due :=
              if existsTruthy bt113 then
                match bt113 with
                | some r113 =>
                  pyRound2 (t - (parse_decimal r113.value).getD 0 - av)
                | Option.none => 0
              else 0
            [make_patch "totals" "BT-115" (.str (formatQ2 computed_due))
              "derived" "derived" "BT-112 - BT-113 - BT-107"
              "R-HDR-PAID-003"]
          else []
        | _, _ => []
      dueDateInstant ++ bt94Block ++ bt92Block ++ bt93Block ++ bt97Block ++
        bt98Block ++ bt107Block ++ bt113Block ++ bt115Block
    else []
  let futureBlock :=
    if existsEmpty bt115 && existsEmpty bt113 && existsTruthy bt112 &&
        existsTruthy bt9 then
      match bt9, bt112 with
      | some r9, some r112 =>
        (match parse_date_to_iso r9.value with
         | some due_iso =>
           (match parseIsoDate due_iso with
            | some d =>
              if dateLt today d then
                [make_patch "totals" "BT-115" r112.value "derived" "derived"
                  "Due date in future and no paid amount; amount due equals total with VAT"
                  "R-TOT-DUE-001" Option.none r9.evidence]
              else []
            | Option.none => [])
         | Option.none => [])
      | _, _ => []
    else []
  let total_without_vat := parseOfRecord (alget invoice.totals "BT-109")
  let doc_allowances : Option ℚ :=
    match alget invoice.totals "BT-107" with
    | some r => parse_decimal r.value
    | Option.none => some 0
  let doc_charges : Option ℚ :=
    match alget invoice.totals "BT-108" with
    | some r => parse_decimal r.value
    | Option.none => some 0
  let line_amounts := invoice.lines.filterMap (fun line =>
    parseOfRecord (alget line.bt "BT-131"))
  let line_allowances : ℚ := (invoice.lines.filterMap (fun line =>
    parseOfRecord (alget line.bt "BT-147"))).sum
  let sum_line_amounts : Option ℚ :=
    if line_amounts ≠ [] then some line_amounts.sum else Option.none
  let treat_gross :=
    if optTruthy doc_allowances || optTruthy doc_charges ||
        line_allowances ≠ 0 then false
    else
      match total_without_vat, sum_line_amounts with
      | some t, some s =>
        decide (s > (t + orZero doc_allowances + line_allowances -
          orZero doc_charges) * 1.001)
      | _, _ => false
  let lineLoopBlock := invoice.lines.flatMap (fun line =>
    let qty := parseOfRecord (alget line.bt "BT-129")
    let vat_rate := parseOfRecord (alget line.bt "BT-152")
    let unit_price := parseOfRecord (alget line.bt "BT-146")
    let line_amount := parseOfRecord (alget line.bt "BT-131")
    let netGross :=
      if treat_gross then
        match vat_rate, line_amount with
        | some r, some la =>
          if r ≠ 0 && r > 0 then
            let factor := 1 + r / 100
            [make_patch "line" "BT-131" (.str (formatQ2 (pyRound2 (la / factor))))
              "corrected" "rule"
              (pyFloatStr la ++ " / (1+" ++ pyFloatStr r ++ "%)")
              "R-LINE-NETGROSS-001" (some line.lineId)] ++
            (match unit_price with
             | some up =>
               [make_patch "line" "BT-146"
                 (.str (formatQ2 (pyRound2 (up / factor)))) "corrected" "rule"
                 (pyFloatStr up ++ " / (1+" ++ pyFloatStr r ++ "%)")
                 "R-LINE-NETGROSS-001" (some line.lineId),
                make_patch "line" "BT-148" (.str (formatQ2 up)) "corrected"
                 "rule" "Set gross price from extracted unit price"
                 "R-LINE-NETGROSS-001" (some line.lineId)]
             | Option.none => [])
          else []
        | _, _ => []
      else []
    let uom :=
      match alget line.bt "BT-130" with
      | some r130 =>
        if !r130.value.truthy && qty.isSome then
          [make_patch "line" "BT-130" (.str "C62") "corrected" "rule"
            "Defaulted unit to pieces" "R-LINE-UOM-001" (some line.lineId)]
        else []
      | Option.none => []
    netGross ++ uom)
  currencyBlock ++ sellerCountryBlock ++ bt112extractBlock ++ chargesBlock ++
    backfillBlock ++ dueFromBT9Block ++ dueFromBT20Block ++ instantBlock ++
    futureBlock ++ lineLoopBlock

/-! Ingestion, from `lexinvo/core/loader.py`. -/

/-- Leftmost match of `(BT-\d+)` (`BT_RE.search`). -/
def btCodeSearch : List Char → Option String
  | 'B' :: 'T' :: '-' :: c :: rest =>
    if c.isDigit then
      some (String.mk ('B' :: 'T' :: '-' :: c :: rest.takeWhile Char.isDigit))
    else btCodeSearch ('T' :: '-' :: c :: rest)
  | _ :: cs => btCodeSearch cs
  | [] => Option.none

/-- From `loader.py`: `_extract_bt_code`. -/
def extract_bt_code (key : String) : Option String := btCodeSearch key.toList

/-- From `loader.py`: `_extract_value` — `(value, raw_value)`; prefers
`content` as raw value, `valueString`/`valueDate`/`valueNumber` (by key
presence) as value; a missing raw value falls back to the value. -/
def extract_value (f : AzureField) : PyVal × PyVal :=
  let value : PyVal :=
    match f.valueString with
    | some v => v
    | Option.none =>
      match f.valueDate with
      | some v => v
      | Option.none =>
        match f.valueNumber with
        | some v => v
        | Option.none => PyVal.none
  let raw0 := (f.content).getD PyVal.none
  (value, if raw0 = PyVal.none then value else raw0)

/-- Registry mapping a BT code to its group. -/
abbrev Registry := List (String × String)

/-- From `loader.py`: `_group_for_bt` (totals/allowances/charges collapse to
`totals`, everything else to `header`). -/
def group_for_bt (registry : Registry) (bt : String) : String :=
  let group := (lookupStr registry bt).getD "header"
  if group = "totals" ∨ group = "allowances" ∨ group = "charges" then "totals"
  else "header"

def azLookup (fields : List (String × AzureField)) (key : String) :
    Option AzureField :=
  (fields.find? (fun e => e.1 = key)).map (·.2)

def fieldValueArray (fields : List (String × AzureField)) (key : String) :
    List (List (String × AzureField)) :=
  match azLookup fields key with
  | some f => f.valueArray
  | Option.none => []

/-- `dict.fromkeys` deduplication (keeps first occurrences, in order). -/
def dedupFirstAux : List String → List String → List String
  | [], _ => []
  | x :: xs, seen =>
    if seen.contains x then dedupFirstAux xs seen
    else x :: dedupFirstAux xs (x :: seen)

def dedupFirst (l : List String) : List String := dedupFirstAux l []

/-- Header/totals record update of the loader's header-field loop. -/
def loaderFieldUpdate (field : AzureField) (value raw : PyVal)
    (status path : String) (r : BTValue) : BTValue :=
  { r with value := value, rawValue := raw, status := status,
           source := (field.source).getD "azure",
           confidence := field.confidence,
           evidence := some [("path", .str path)] }

/-- One step of the loader's header-level field loop. -/
def applyHeaderField (acc : BTMap × BTMap) (kv : String × AzureField) :
    BTMap × BTMap :=
  if kv.1 = "Items" then acc
  else
    match extract_bt_code kv.1 with
    | Option.none => acc
    | some bt =>
      let ev := extract_value kv.2
      let status := if ev.1.notNoneOrEmpty then "ok" else "missing"
      let path := "analyzeResult.documents[0].fields." ++ kv.1
      match alget acc.1 bt with
      | some r =>
        (alset acc.1 bt (loaderFieldUpdate kv.2 ev.1 ev.2 status path r), acc.2)
      | Option.none =>
        match alget acc.2 bt with
        | some r =>
          (acc.1, alset acc.2 bt (loaderFieldUpdate kv.2 ev.1 ev.2 status path r))
        | Option.none => acc

/-- One step of the loader's per-line field loop (codes outside the line
store are ignored). -/
def applyLineField (idx : ℕ) (store : BTMap) (kv : String × AzureField) :
    BTMap :=
  match extract_bt_code kv.1 with
  | Option.none => store
  | some bt =>
    match alget store bt with
    | some r =>
      let ev := extract_value kv.2
      let status := if ev.1.notNoneOrEmpty then "ok" else "missing"
      let path := "analyzeResult.documents[0].fields.Items.valueArray[" ++
        toString (idx - 1) ++ "]." ++ kv.1
      alset store bt (loaderFieldUpdate kv.2 ev.1 ev.2 status path r)
    | Option.none => store

/-- From `loader.py`: `_apply_array_field` — fills only records whose
current value is `None`/empty. -/
def applyArrayItemField (pathRoot : String) (idx : ℕ) (acc : BTMap × BTMap)
    (kv : String × AzureField) : BTMap × BTMap :=
  match extract_bt_code kv.1 with
  | Option.none => acc
  | some bt =>
    let ev := extract_value kv.2
    let path := pathRoot ++ ".valueArray[" ++ toString idx ++ "]." ++ kv.1
    let status := if ev.1.notNoneOrEmpty then "ok" else "missing"
    match alget acc.1 bt with
    | some r =>
      if r.value.notNoneOrEmpty then acc
      else (alset acc.1 bt (loaderFieldUpdate kv.2 ev.1 ev.2 status path r), acc.2)
    | Option.none =>
      match alget acc.2 bt with
      | some r =>
        if r.value.notNoneOrEmpty then acc
        else (acc.1, alset acc.2 bt (loaderFieldUpdate kv.2 ev.1 ev.2 status path r))
      | Option.none => acc

def applyArrayField (pathRoot : String)
    (items : List (List (String × AzureField))) (acc : BTMap × BTMap) :
    BTMap × BTMap :=
  items.enum.foldl (fun acc idxItem =>
    idxItem.2.foldl (applyArrayItemField pathRoot idxItem.1) acc) acc

/-- BT-84/BT-86 text collection of the PaymentDetails block. -/
def collectPaymentTexts (items : List (List (String × AzureField))) :
    List String × List String :=
  items.foldl (fun acc item =>
    item.foldl (fun acc kv =>
      match extract_bt_code kv.1 with
      | some bt =>
        if bt = "BT-84" ∨ bt = "BT-86" then
          let ev := extract_value kv.2
          let t := pyStrip (pyStr (if ev.2 ≠ PyVal.none then ev.2 else ev.1))
          if t = "" then acc
          else if bt = "BT-84" then (acc.1 ++ [t], acc.2)
          else
            (acc.1, acc.2 ++ (pySplitWs t).filter (fun tok => pyUpper tok ≠ "NONE"))
        else acc
      | Option.none => acc) acc) ([], [])

/-- Joined-text record update used for BT-84/BT-86 and the aggregated
amount totals of the loader. -/
def loaderJoinUpdate (joined : String) (path : String) (r : BTValue) :
    BTValue :=
  { r with value := .str joined, rawValue := .str joined, status := "ok",
           source := "azure", evidence := some [("path", .str path)] }

/-- Write a joined value to BT-84/BT-86 (header first, totals fallback). -/
def applyJoined (bt joined path : String) (acc : BTMap × BTMap) :
    BTMap × BTMap :=
  match alget acc.1 bt with
  | some r => (alset acc.1 bt (loaderJoinUpdate joined path r), acc.2)
  | Option.none =>
    match alget acc.2 bt with
    | some r => (acc.1, alset acc.2 bt (loaderJoinUpdate joined path r))
    | Option.none => acc

/-- The Allowances & Charges loop: BT-99/BT-92 amounts are collected (only
positive parses), other codes fill empty totals records. -/
def allowChargeStep (idx : ℕ) (acc : BTMap × List ℚ × List ℚ)
    (kv : String × AzureField) : BTMap × List ℚ × List ℚ :=
  match extract_bt_code kv.1 with
  | Option.none => acc
  | some bt =>
    let ev := extract_value kv.2
    match alget acc.1 bt with
    | Option.none => acc
    | some r =>
      if bt = "BT-99" then
        match parse_decimal (if ev.1 ≠ PyVal.none then ev.1 else ev.2) with
        | some a => if a > 0 then (acc.1, acc.2.1 ++ [a], acc.2.2) else acc
        | Option.none => acc
      else if bt = "BT-92" then
        match parse_decimal (if ev.1 ≠ PyVal.none then ev.1 else ev.2) with
        | some a => if a > 0 then (acc.1, acc.2.1, acc.2.2 ++ [a]) else acc
        | Option.none => acc
      else if r.value.notNoneOrEmpty then acc
      else
        let status := if ev.1.notNoneOrEmpty then "ok" else "missing"
        let path := "analyzeResult.documents[0].fields.Allowances & Charges.valueArray[" ++
          toString idx ++ "]." ++ kv.1
        (alset acc.1 bt (loaderFieldUpdate kv.2 ev.1 ev.2 status path r),
          acc.2.1, acc.2.2)

/-- The Taxes loop: BT-110/BT-116 amounts are collected (any parse), other
codes fill empty totals records. -/
def taxesStep (idx : ℕ) (acc : BTMap × List ℚ × List ℚ)
    (kv : String × AzureField) : BTMap × List ℚ × List ℚ :=
  match extract_bt_code kv.1 with
  | Option.none => acc
  | some bt =>
    let ev := extract_value kv.2
    if bt = "BT-110" then
      match parse_decimal (if ev.1 ≠ PyVal.none then ev.1 else ev.2) with
      | some a => (acc.1, acc.2.1 ++ [a], acc.2.2)
      | Option.none => acc
    else if bt = "BT-116" then
      match parse_decimal (if ev.1 ≠ PyVal.none then ev.1 else ev.2) with
      | some a => (acc.1, acc.2.1, acc.2.2 ++ [a])
      | Option.none => acc
    else
      match alget acc.1 bt with
      | some r =>
        if r.value.notNoneOrEmpty then acc
        else
          let status := if ev.1.notNoneOrEmpty then "ok" else "missing"
          let path := "analyzeResult.documents[0].fields.Taxes.valueArray[" ++
            toString idx ++ "]." ++ kv.1
          (alset acc.1 bt (loaderFieldUpdate kv.2 ev.1 ev.2 status path r),
            acc.2.1, acc.2.2)
      | Option.none => acc

/-- Fill an empty totals record with an aggregated amount sum. -/
def applyAmountSum (bt : String) (amounts : List ℚ) (path : String)
    (totals : BTMap) : BTMap :=
  if amounts ≠ [] then
    match alget totals bt with
    | some r =>
      if !r.value.truthy then
        alset totals bt (loaderJoinUpdate (formatQ2 (pyRound2 amounts.sum)) path r)
      else totals
    | Option.none => totals
  else totals

set_option maxHeartbeats 1000000 in
/-- From `loader.py`: `load_azure` — Azure JSON to the initial canonical
invoice. -/
def load_azure (input_data : AzureInput) (bt_registry : Registry) :
    CanonicalInvoice :=
  let header0 : BTMap := bt_registry.filterMap (fun e =>
    if group_for_bt bt_registry e.1 ≠ "totals" then
      some (e.1, empty_btvalue e.1)
    else Option.none)
  let totals0 : BTMap := bt_registry.filterMap (fun e =>
    if group_for_bt bt_registry e.1 = "totals" then
      some (e.1, empty_btvalue e.1)
    else Option.none)
  let fields := input_data.documents.headD []
  let ht1 := fields.foldl applyHeaderField (header0, totals0)
  let items := fieldValueArray fields "Items"
  let lines : List CanonicalLine := (items.enum.map (fun idxItem =>
    let idx : ℕ := idxItem.1 + 1
    let store0 : BTMap := bt_registry.filterMap (fun e =>
      if e.2 = "line" then some (e.1, empty_btvalue e.1) else Option.none)
    let store := idxItem.2.foldl (applyLineField idx) store0
    CanonicalLine.mk ((idx : ℕ) : ℤ) store))
  let payment_details := fieldValueArray fields "PaymentDetails"
  let ht2 :=
    if !payment_details.isEmpty then
      let ht := applyArrayField "analyzeResult.documents[0].fields.PaymentDetails"
        payment_details ht1
      let texts := collectPaymentTexts payment_details
      let ht :=
        if texts.1 ≠ [] then
          applyJoined "BT-84" (String.intercalate "; " (dedupFirst texts.1))
            "analyzeResult.documents[0].fields.PaymentDetails.valueArray" ht
        else ht
      if texts.2 ≠ [] then
        applyJoined "BT-86" (String.intercalate "; " (dedupFirst texts.2))
          "analyzeResult.documents[0].fields.PaymentDetails.valueArray" ht
      else ht
    else ht1
  let allow_charge_items := fieldValueArray fields "Allowances & Charges"
  let ht3 :=
    if !allow_charge_items.isEmpty then
      applyArrayField "analyzeResult.documents[0].fields.Allowances & Charges"
        allow_charge_items ht2
    else ht2
  let acRes := allow_charge_items.enum.foldl (fun acc idxItem =>
    idxItem.2.foldl (allowChargeStep idxItem.1) acc) (ht3.2, [], [])
  let totals4 := acRes.1
  let charge_amounts := acRes.2.1
  let allowance_amounts := acRes.2.2
  let totals5 := applyAmountSum "BT-99" charge_amounts
    "analyzeResult.documents[0].fields.Allowances & Charges.valueArray" totals4
  let totals6 := applyAmountSum "BT-92" allowance_amounts
    "analyzeResult.documents[0].fields.Allowances & Charges.valueArray" totals5
  let taxes_items := fieldValueArray fields "Taxes"
  let ht7 :=
    if !taxes_items.isEmpty then
      applyArrayField "analyzeResult.documents[0].fields.Taxes" taxes_items
        (ht3.1, totals6)
    else (ht3.1, totals6)
  let taxRes := taxes_items.enum.foldl (fun acc idxItem =>
    idxItem.2.foldl (taxesStep idxItem.1) acc) (ht7.2, [], [])
  let totals8 := taxRes.1
  let vat_amounts := taxRes.2.1
  let taxable_amounts := taxRes.2.2
  let totals9 := applyAmountSum "BT-110" vat_amounts
    "analyzeResult.documents[0].fields.Taxes.valueArray" totals8
  let totals10 := applyAmountSum "BT-116" taxable_amounts
    "analyzeResult.documents[0].fields.Taxes.valueArray" totals9
  { header := ht7.1, lines := lines, totals := totals10, raw := input_data,
    patches := [] }

/-! Orchestration, from `lexinvo/core/pipeline.py` (lines 48-62) and
`rules_engine.run_all_phases`. -/

/-- One orchestrator step: call a phase on the invoice snapshot, then apply
each returned patch, one at a time, in the order produced. -/
def stepPhase (invoice : CanonicalInvoice)
    (f : CanonicalInvoice → List Patch) : CanonicalInvoice :=
  applyPatches invoice (f invoice)

/-- The seven phase calls of `run_pipeline`, in source order (the second
pass re-runs derive/resolve/validate). -/
def pipelinePhaseSeq (today : PyDate) :
    List (CanonicalInvoice → List Patch) :=
  [phase1_normalize, phase2_derive, phase3_validate, phase4_resolve today,
   phase2_derive, phase4_resolve today, phase3_validate]

/-- From `pipeline.py`: the rule-engine portion of `run_pipeline` — the
seven `for patch in phaseX(invoice): apply_patch(invoice, patch)` loops,
written out exactly as in the source. -/
def runPhases (today : PyDate) (invoice : CanonicalInvoice) :
    CanonicalInvoice :=
  let invoice := applyPatches invoice (phase1_normalize invoice)
  let invoice := applyPatches invoice (phase2_derive invoice)
  let invoice := applyPatches invoice (phase3_validate invoice)
  let invoice := applyPatches invoice (phase4_resolve today invoice)
  let invoice := applyPatches invoice (phase2_derive invoice)
  let invoice := applyPatches invoice (phase4_resolve today invoice)
  let invoice := applyPatches invoice (phase3_validate invoice)
  invoice

/-- From `rules_engine.py`: `run_all_phases` — concatenates the patch lists
of six phase calls (no second resolve) without applying any of them; it has
no callers in the repository (`run_pipeline` is the orchestrator used by
`main.py` and `webapp.py`). -/
def run_all_phases (today : PyDate) (invoice : CanonicalInvoice) :
    List Patch :=
  phase1_normalize invoice ++ phase2_derive invoice ++
    phase3_validate invoice ++ phase4_resolve today invoice ++
    phase2_derive invoice ++ phase3_validate invoice

/-! Lemmas about the patch/audit store. -/

theorem alget_alset_self (m : BTMap) (k : String) (v : BTValue) (r : BTValue)
    (h : alget m k = some r) : alget (alset m k v) k = some v := by
  induction m with
  | nil => simp [alget] at h
  | cons e es ih =>
    by_cases he : e.1 = k
    · simp [alget, alset, he, List.find?]
    · simp only [alset, if_neg he]
      simp only [alget, List.find?] at h ⊢
      rw [show (decide (e.1 = k)) = false by simpa using he] at h ⊢
      exact ih h

theorem updateLineBT_find (lines : List CanonicalLine) (lid : Option ℤ)
    (bt : String) (v : BTValue) (line : CanonicalLine)
    (h : lines.find? (fun l => lineIdEq l.lineId lid) = some line) :
    (updateLineBT lines lid bt v).find? (fun l => lineIdEq l.lineId lid) =
      some { line with bt := alset line.bt bt v } := by
  induction lines with
  | nil => simp [List.find?] at h
  | cons l ls ih =>
    by_cases hm : lineIdEq l.lineId lid
    · simp only [List.find?, hm] at h
      simp only [updateLineBT, if_pos hm, List.find?]
      have hm2 : lineIdEq ({ l with bt := alset l.bt bt v } : CanonicalLine).lineId lid = true := hm
      simp only [hm2]
      simp only [Option.some.injEq] at h
      subst h
      rfl
    · have hmf : lineIdEq l.lineId lid = false := by simpa using hm
      simp only [List.find?, hmf] at h
      have hu : updateLineBT (l :: ls) lid bt v = l :: updateLineBT ls lid bt v := by
        simp [updateLineBT, hmf]
      rw [hu]
      simp only [List.find?, hmf]
      exact ih h

theorem apply_patch_of_unresolved (inv : CanonicalInvoice) (p : Patch)
    (h : resolveTarget inv p = Option.none) : apply_patch inv p = inv := by
  simp [apply_patch, h]

theorem apply_patch_of_resolved (inv : CanonicalInvoice) (p : Patch)
    (r : BTValue) (h : resolveTarget inv p = some r) :
    (apply_patch inv p).patches = inv.patches ++ [logEntryFor r.value p] := by
  simp only [apply_patch, h]
  split
  · rfl
  · split
    · rfl
    · rfl

theorem apply_patch_resolve_after (inv : CanonicalInvoice) (p : Patch)
    (r : BTValue) (h : resolveTarget inv p = some r) :
    resolveTarget (apply_patch inv p) p = some (patchedRecord r p) := by
  by_cases h1 : p.scope = "header"
  · have hg : alget inv.header p.bt = some r := by
      simpa [resolveTarget, h1] using h
    simp only [apply_patch, h, if_pos h1]
    simp only [resolveTarget, if_pos h1]
    exact alget_alset_self _ _ _ _ hg
  · by_cases h2 : p.scope = "totals"
    · have hg : alget inv.totals p.bt = some r := by
        simpa [resolveTarget, h1, h2] using h
      simp only [apply_patch, h, if_neg h1, if_pos h2]
      simp only [resolveTarget, if_neg h1, if_pos h2]
      exact alget_alset_self _ _ _ _ hg
    · simp only [resolveTarget, if_neg h1, if_neg h2] at h
      cases hf : inv.lines.find? (fun l => lineIdEq l.lineId p.lineId) with
      | none => simp [hf] at h
      | some line =>
        simp only [hf] at h
        have hg : alget line.bt p.bt = some r := h
        simp only [apply_patch, resolveTarget, if_neg h1, if_neg h2, hf, hg]
        rw [updateLineBT_find inv.lines p.lineId p.bt (patchedRecord r p) line hf]
        exact alget_alset_self line.bt p.bt (patchedRecord r p) r hg

theorem apply_patch_len_mono (inv : CanonicalInvoice) (p : Patch) :
    inv.patches.length ≤ (apply_patch inv p).patches.length := by
  cases h : resolveTarget inv p with
  | none => rw [apply_patch_of_unresolved inv p h]
  | some r =>
    rw [apply_patch_of_resolved inv p r h]
    simp

theorem apply_patch_eq_of_len (inv : CanonicalInvoice) (p : Patch)
    (h : (apply_patch inv p).patches.length = inv.patches.length) :
    apply_patch inv p = inv := by
  cases hr : resolveTarget inv p with
  | none => exact apply_patch_of_unresolved inv p hr
  | some r =>
    have := apply_patch_of_resolved inv p r hr
    rw [this] at h
    simp at h

theorem applyPatches_len_mono (ps : List Patch) (inv : CanonicalInvoice) :
    inv.patches.length ≤ (applyPatches inv ps).patches.length := by
  induction ps generalizing inv with
  | nil => simp [applyPatches]
  | cons p ps ih =>
    calc inv.patches.length ≤ (apply_patch inv p).patches.length :=
          apply_patch_len_mono inv p
      _ ≤ (applyPatches (apply_patch inv p) ps).patches.length := ih _

theorem applyPatches_eq_of_len (ps : List Patch) (inv : CanonicalInvoice)
    (h : (applyPatches inv ps).patches.length = inv.patches.length) :
    applyPatches inv ps = inv := by
  induction ps generalizing inv with
  | nil => rfl
  | cons p ps ih =>
    have hstep : (apply_patch inv p).patches.length = inv.patches.length := by
      have h1 := apply_patch_len_mono inv p
      have h2 := applyPatches_len_mono ps (apply_patch inv p)
      have h3 : applyPatches inv (p :: ps) =
          applyPatches (apply_patch inv p) ps := rfl
      rw [h3] at h
      omega
    have he := apply_patch_eq_of_len inv p hstep
    have h3 : applyPatches inv (p :: ps) =
        applyPatches (apply_patch inv p) ps := rfl
    rw [h3, he] at h ⊢
    exact ih inv h

theorem runSeq_fix (fs : List (CanonicalInvoice → List Patch))
    (inv : CanonicalInvoice)
    (h : (fs.foldl stepPhase inv).patches.length = inv.patches.length) :
    fs.foldl stepPhase inv = inv := by
  induction fs generalizing inv with
  | nil => rfl
  | cons f fs ih =>
    have h3 : (f :: fs).foldl stepPhase inv =
        fs.foldl stepPhase (stepPhase inv f) := rfl
    have hstep : (stepPhase inv f).patches.length = inv.patches.length := by
      have h1 := applyPatches_len_mono (f inv) inv
      have h2 := applyPatches_len_mono
      have h4 : ∀ (fs : List (CanonicalInvoice → List Patch)) inv,
          inv.patches.length ≤ (fs.foldl stepPhase inv).patches.length := by
        intro fs
        induction fs with
        | nil => intro inv; simp
        | cons g gs ihg =>
          intro inv
          calc inv.patches.length ≤ (stepPhase inv g).patches.length :=
                applyPatches_len_mono (g inv) inv
            _ ≤ _ := ihg _
      rw [h3] at h
      have h5 := h4 fs (stepPhase inv f)
      have h6 : inv.patches.length ≤ (stepPhase inv f).patches.length :=
        applyPatches_len_mono (f inv) inv
      omega
    have he : stepPhase inv f = inv := applyPatches_eq_of_len (f inv) inv hstep
    rw [h3, he] at h ⊢
    exact ih inv h

/-- `runPhases` is exactly the sequential fold of the seven-call phase list
through the patch store. -/
theorem runPhases_eq_foldl (today : PyDate) (inv : CanonicalInvoice) :
    runPhases today inv = (pipelinePhaseSeq today).foldl stepPhase inv := by
  simp only [runPhases, pipelinePhaseSeq, List.foldl, stepPhase]

theorem runPhases_fix (today : PyDate) (inv : CanonicalInvoice)
    (h : (runPhases today inv).patches.length = inv.patches.length) :
    runPhases today inv = inv := by
  rw [runPhases_eq_foldl] at h ⊢
  exact runSeq_fix _ _ h

/-! Concrete inputs used by witnesses and counterexamples. -/

def testToday : PyDate := ⟨2026, 1, 1⟩

def emptyInvoice : CanonicalInvoice :=
  { header := [], lines := [], totals := [], raw := ⟨"", []⟩, patches := [] }

/-- Field record with equal value and raw value. -/
def mkRec (bt : String) (v : PyVal) (st : String) : BTValue :=
  { bt := bt, value := v, rawValue := v, status := st, source := "azure" }

/-! Claim theorems. -/

/-- Claim C2: `apply_patch` either resolves a target field record by scope —
then it overwrites the record's value/status/source/derivation/rule
id/evidence and appends exactly one audit entry, even when the new value
equals the old one — or, when no target resolves, leaves the invoice
entirely unchanged (same patch-log length) and raises no error (the
function is total). -/
theorem claim_C2_apply_patch (inv : CanonicalInvoice) (p : Patch) :
    (∀ r, resolveTarget inv p = some r →
      (apply_patch inv p).patches = inv.patches ++ [logEntryFor r.value p] ∧
      resolveTarget (apply_patch inv p) p = some (patchedRecord r p)) ∧
    (resolveTarget inv p = Option.none → apply_patch inv p = inv) :=
  ⟨fun r h => ⟨apply_patch_of_resolved inv p r h,
    apply_patch_resolve_after inv p r h⟩,
   apply_patch_of_unresolved inv p⟩

def c2Invoice : CanonicalInvoice :=
  { header := [("BT-1", mkRec "BT-1" (.str "INV-1") "ok")], lines := [],
    totals := [], raw := ⟨"", []⟩, patches := [] }

/-- A patch whose new value equals the stored one (the audit entry is still
appended). -/
def c2PatchHit : Patch :=
  { scope := "header", bt := "BT-1", newValue := .str "INV-1",
    status := "corrected", source := "rule", derivation := "noop",
    ruleId := "R-TEST-1" }

/-- A patch naming a non-existent line id (silent no-op). -/
def c2PatchMiss : Patch :=
  { scope := "line", bt := "BT-131", newValue := .str "5",
    lineId := some 7, status := "corrected", source := "rule" }

theorem claim_C2_apply_patch_witness :
    (apply_patch c2Invoice c2PatchHit).patches =
      c2Invoice.patches ++ [logEntryFor (.str "INV-1") c2PatchHit] ∧
    apply_patch c2Invoice c2PatchMiss = c2Invoice :=
  ⟨((claim_C2_apply_patch c2Invoice c2PatchHit).1
      (mkRec "BT-1" (.str "INV-1") "ok") (by decide)).1,
   (claim_C2_apply_patch c2Invoice c2PatchMiss).2 (by decide)⟩

/-- Claim C3: the orchestrator performs exactly the seven phase calls
normalize, derive, validate, resolve, derive, resolve, validate (a second
resolve included), applying each returned patch one at a time, in the order
produced, through the patch/audit store before invoking the next phase. -/
theorem claim_C3_orchestration (today : PyDate) (inv : CanonicalInvoice) :
    runPhases today inv = (pipelinePhaseSeq today).foldl stepPhase inv ∧
    pipelinePhaseSeq today =
      [phase1_normalize, phase2_derive, phase3_validate,
       phase4_resolve today, phase2_derive, phase4_resolve today,
       phase3_validate] ∧
    (∀ (f : CanonicalInvoice → List Patch)
       (fs : List (CanonicalInvoice → List Patch)) (i : CanonicalInvoice),
       (f :: fs).foldl stepPhase i =
         fs.foldl stepPhase (applyPatches i (f i))) ∧
    (∀ (i : CanonicalInvoice) (ps : List Patch),
       applyPatches i ps = ps.foldl apply_patch i) :=
  ⟨runPhases_eq_foldl today inv, rfl, fun _ _ _ => rfl, fun _ _ => rfl⟩

/-- Claim C1: if one full two-pass run on an invoice left the patch log
length unchanged (the invoice is converged — by the store lemmas this
forces the run to change nothing at all), then a second full run leaves the
patch log length unchanged as well. -/
theorem claim_C1_idempotence (today : PyDate) (inv : CanonicalInvoice)
    (h : (runPhases today inv).patches.length = inv.patches.length) :
    (runPhases today (runPhases today inv)).patches.length =
      (runPhases today inv).patches.length := by
  rw [runPhases_fix today inv h]
  exact h

theorem claim_C1_idempotence_witness :
    (runPhases testToday emptyInvoice).patches.length =
      emptyInvoice.patches.length ∧
    (runPhases testToday (runPhases testToday emptyInvoice)).patches.length =
      (runPhases testToday emptyInvoice).patches.length :=
  ⟨by decide, claim_C1_idempotence testToday emptyInvoice (by decide)⟩

/-- Claim C8: the German-postcode subdivision lookup maps "10115" to
"DE-BE"; and whenever the matching table ranges name two or more distinct
federal states (the non-state entry aside), the lookup yields no
subdivision — the field is never guessed. -/
theorem claim_C8_postcode (v : PyVal) :
    de_subdivision_from_postcode (.str "10115") = some "DE-BE" ∧
    (∀ pc, normalize_de_postcode v = some pc →
      2 ≤ ((matchedStates DE_POSTCODE_RANGES pc).filter
             (fun s => s ≠ "Außerhalb der BRD")).length →
      de_subdivision_from_postcode v = Option.none) := by
  refine ⟨by decide, ?_⟩
  intro pc hn h2
  unfold de_subdivision_from_postcode subdivisionFromRanges
  rw [hn]
  rcases hms : (matchedStates DE_POSTCODE_RANGES pc).filter
      (fun s => s ≠ "Außerhalb der BRD") with _ | ⟨st, _ | ⟨b, rest⟩⟩
  · simp only [hms]
  · rw [hms] at h2
    simp at h2
  · simp only [hms]

theorem claim_C8_postcode_witness :
    normalize_de_postcode (.str "07919") = some 7919 ∧
    2 ≤ ((matchedStates DE_POSTCODE_RANGES 7919).filter
           (fun s => s ≠ "Außerhalb der BRD")).length ∧
    de_subdivision_from_postcode (.str "07919") = Option.none :=
  ⟨by decide, by decide,
   (claim_C8_postcode (.str "07919")).2 7919 (by decide) (by decide)⟩

/-- Claim C10: the subdivision logic discards "Außerhalb der BRD" matches
before testing uniqueness — a postcode whose post-discard match list is one
federal state yields that state's code even when an "Außerhalb der BRD"
range also matched, and a postcode matching only "Außerhalb der BRD"
ranges (87491 in the shipped table) yields no subdivision. -/
theorem claim_C10_discard (ranges : List (ℕ × ℕ × String)) (v : PyVal) :
    (∀ pc st, normalize_de_postcode v = some pc →
      (matchedStates ranges pc).filter
          (fun s => s ≠ "Außerhalb der BRD") = [st] →
      subdivisionFromRanges ranges v = lookupStr DE_STATE_CODES st) ∧
    (∀ pc, normalize_de_postcode v = some pc →
      (matchedStates ranges pc).filter
          (fun s => s ≠ "Außerhalb der BRD") = [] →
      subdivisionFromRanges ranges v = Option.none) ∧
    matchedStates DE_POSTCODE_RANGES 87491 = ["Außerhalb der BRD"] ∧
    de_subdivision_from_postcode (.str "87491") = Option.none := by
  refine ⟨?_, ?_, by decide, by decide⟩
  · intro pc st hn hms
    unfold subdivisionFromRanges
    rw [hn]
    simp only [hms]
  · intro pc hn hms
    unfold subdivisionFromRanges
    rw [hn]
    simp only [hms]

/-- Two-range table on which one federal state plus the non-state entry
both match. -/
def c10ToyRanges : List (ℕ × ℕ × String) :=
  [(10, 20, "Berlin"), (15, 25, "Außerhalb der BRD")]

theorem claim_C10_discard_witness :
    subdivisionFromRanges c10ToyRanges (.str "00015") = some "DE-BE" ∧
    subdivisionFromRanges DE_POSTCODE_RANGES (.str "87491") = Option.none := by
  constructor
  · have h := (claim_C10_discard c10ToyRanges (.str "00015")).1 15 "Berlin"
      (by decide) (by decide)
    rw [h]
    decide
  · exact (claim_C10_discard DE_POSTCODE_RANGES (.str "87491")).2.1 87491
      (by decide) (by decide)

/-! Lemmas for decimal parsing and rendering (claim C7). -/

theorem digitChar_ne_dot (k : ℕ) : digitChar k ≠ '.' := by
  unfold digitChar
  rcases Nat.lt_or_ge k 10 with h | h
  · interval_cases k <;> decide
  · rw [List.getD_eq_default]
    · decide
    · simpa using h

/-- Number of characters after the last `.` of a string. -/
def decimalsAfter (s : String) : ℕ :=
  (s.toList.reverse.takeWhile (fun c => c ≠ '.')).length

theorem decimalsAfter_append_frac (pre : String) (d1 d2 : Char)
    (h1 : d1 ≠ '.') (h2 : d2 ≠ '.') :
    decimalsAfter (pre ++ "." ++ String.mk [d1, d2]) = 2 := by
  unfold decimalsAfter
  have hdata : (pre ++ "." ++ String.mk [d1, d2]).toList =
      (pre.toList ++ ['.']) ++ [d1, d2] := by
    simp [String.toList]
  rw [hdata, List.reverse_append]
  simp only [List.reverse_cons, List.reverse_nil, List.nil_append,
    List.cons_append, List.reverse_append]
  simp [List.takeWhile, h1, h2]

/-- Every rendering produced by the `.2f` formatter has exactly two decimal
digits. -/
theorem formatQ2_two_decimals (q : ℚ) : decimalsAfter (formatQ2 q) = 2 := by
  unfold formatQ2 twoDigits
  exact decimalsAfter_append_frac _ _ _ (digitChar_ne_dot _) (digitChar_ne_dot _)

theorem replaceListAux_del (c : Char) :
    ∀ (fuel : ℕ) (l : List Char), l.length ≤ fuel →
      replaceListAux [c] [] fuel l = l.filter (fun x => x ≠ c) := by
  intro fuel
  induction fuel with
  | zero =>
    intro l h
    cases l with
    | nil => rfl
    | cons x xs => simp at h
  | succ f ih =>
    intro l h
    cases l with
    | nil => rfl
    | cons x xs =>
      simp only [replaceListAux, List.isPrefixOf, List.filter]
      by_cases hx : c = x
      · subst hx
        rw [if_pos (by simp)]
        simp only [List.length_singleton, List.drop_succ_cons, List.drop_zero,
          List.nil_append]
        rw [ih xs (by simpa using h)]
        simp
      · rw [if_neg (by simp [hx, Ne.symm hx])]
        rw [ih xs (by simpa using h)]
        simp [Ne.symm hx]

theorem replaceListAux_subst (c d : Char) :
    ∀ (fuel : ℕ) (l : List Char), l.length ≤ fuel →
      replaceListAux [c] [d] fuel l =
        l.map (fun x => if x = c then d else x) := by
  intro fuel
  induction fuel with
  | zero =>
    intro l h
    cases l with
    | nil => rfl
    | cons x xs => simp at h
  | succ f ih =>
    intro l h
    cases l with
    | nil => rfl
    | cons x xs =>
      simp only [replaceListAux, List.isPrefixOf, List.map]
      by_cases hx : c = x
      · subst hx
        rw [if_pos (by simp)]
        simp only [List.length_singleton, List.drop_succ_cons, List.drop_zero,
          List.singleton_append]
        rw [ih xs (by simpa using h)]
        simp
      · rw [if_neg (by simp [hx, Ne.symm hx])]
        rw [ih xs (by simpa using h)]
        simp [Ne.symm hx]

theorem pyReplace_del (s : String) (c : Char) :
    pyReplace s (String.mk [c]) "" =
      String.mk (s.toList.filter (fun x => x ≠ c)) := by
  unfold pyReplace
  rw [show (String.mk [c]).toList = [c] from rfl,
    show ("" : String).toList = [] from rfl,
    replaceListAux_del c s.toList.length s.toList le_rfl]

theorem pyReplace_subst (s : String) (c d : Char) :
    pyReplace s (String.mk [c]) (String.mk [d]) =
      String.mk (s.toList.map (fun x => if x = c then d else x)) := by
  unfold pyReplace
  rw [show (String.mk [c]).toList = [c] from rfl,
    show (String.mk [d]).toList = [d] from rfl,
    replaceListAux_subst c d s.toList.length s.toList le_rfl]

theorem mem_dropLeadingSpace {c : Char} (hc : isPySpace c = false) :
    ∀ l : List Char, c ∈ l → c ∈ dropLeadingSpace l := by
  intro l
  induction l with
  | nil => simp
  | cons x xs ih =>
    intro h
    simp only [dropLeadingSpace]
    split
    · rcases List.mem_cons.1 h with h | h
      · subst h; simp_all
      · exact ih h
    · exact h

theorem mem_pyStrip {c : Char} (s : String) (hc : isPySpace c = false)
    (h : c ∈ s.toList) : c ∈ (pyStrip s).toList := by
  unfold pyStrip
  have h1 : c ∈ dropLeadingSpace s.toList := mem_dropLeadingSpace hc _ h
  have h2 : c ∈ (dropLeadingSpace s.toList).reverse := by simpa using h1
  have h3 := mem_dropLeadingSpace hc _ h2
  simpa using h3

/-- Stated from the claim's wording (C7): among the kept characters
(digits and `, . -`), the separator occurring last becomes the decimal
point and every occurrence of the other separator is discarded as a
thousands separator. -/
def lastSeparatorReading (s : String) : Option ℚ :=
  let kept := (pyStrip s).toList.filter
    (fun c => c.isDigit || c = ',' || c = '.' || c = '-')
  let decSep : Char :=
    if lastIdx (String.mk kept) ',' > lastIdx (String.mk kept) '.' then ','
    else '.'
  let other : Char := if decSep = ',' then '.' else ','
  parseFloat (String.mk ((kept.filter (fun c => c ≠ other)).map
    (fun c => if c = decSep then '.' else c)))

theorem p1DateBlock_ruleId (inv : CanonicalInvoice) (p : Patch)
    (hp : p ∈ p1DateBlock inv) : p.ruleId = "R-HDR-DATE-001" := by
  unfold p1DateBlock at hp
  iterate 8 (all_goals ((try simp only [] at hp) ; (try split at hp)))
  all_goals simp_all [make_patch]

theorem p1VatBlock_ruleId (inv : CanonicalInvoice) (p : Patch)
    (hp : p ∈ p1VatBlock inv) : p.ruleId = "R-HDR-VAT-001" := by
  unfold p1VatBlock at hp
  iterate 8 (all_goals ((try simp only [] at hp) ; (try split at hp)))
  all_goals simp_all [make_patch]

theorem p1RegBlock_ruleId (inv : CanonicalInvoice) (p : Patch)
    (hp : p ∈ p1RegBlock inv) : p.ruleId = "R-HDR-REG-001" := by
  unfold p1RegBlock at hp
  iterate 8 (all_goals ((try simp only [] at hp) ; (try split at hp)))
  all_goals simp_all [make_patch]

theorem p1EmailBlock_ruleId (inv : CanonicalInvoice) (p : Patch)
    (hp : p ∈ p1EmailBlock inv) : p.ruleId = "R-HDR-EMAIL-001" := by
  unfold p1EmailBlock at hp
  iterate 8 (all_goals ((try simp only [] at hp) ; (try split at hp)))
  all_goals simp_all [make_patch]

theorem p1TaxRegBlock_ruleId (inv : CanonicalInvoice) (p : Patch)
    (hp : p ∈ p1TaxRegBlock inv) : p.ruleId = "R-HDR-TAXREG-001" := by
  unfold p1TaxRegBlock at hp
  iterate 8 (all_goals ((try simp only [] at hp) ; (try split at hp)))
  all_goals simp_all [make_patch]

theorem p1CountryBlock_ruleId (inv : CanonicalInvoice) (p : Patch)
    (hp : p ∈ p1CountryBlock inv) : p.ruleId = "R-HDR-COUNTRY-BUYER-001" := by
  unfold p1CountryBlock at hp
  iterate 8 (all_goals ((try simp only [] at hp) ; (try split at hp)))
  all_goals simp_all [make_patch]

theorem p1TotalsBlock_shape (inv : CanonicalInvoice) (p : Patch)
    (hp : p ∈ p1TotalsBlock inv) : ∃ q, p.newValue = .str (formatQ2 q) := by
  unfold p1TotalsBlock at hp
  rw [List.mem_flatMap] at hp
  obtain ⟨bt, _hbt, hp⟩ := hp
  iterate 8 (all_goals ((try simp only [] at hp) ; (try split at hp)))
  all_goals simp_all [make_patch]

theorem p1LineBlock_shape (inv : CanonicalInvoice) (p : Patch)
    (hp : p ∈ p1LineBlock inv) : ∃ q, p.newValue = .str (formatQ2 q) := by
  unfold p1LineBlock at hp
  rw [List.mem_flatMap] at hp
  obtain ⟨line, _hl, hp⟩ := hp
  rw [List.mem_flatMap] at hp
  obtain ⟨bt, _hbt, hp⟩ := hp
  iterate 8 (all_goals ((try simp only [] at hp) ; (try split at hp)))
  all_goals simp_all [make_patch]

/-- Claim C7: decimal parsing maps "1.947,75" and "1,947.75" to 1947.75;
for every text containing both separators the one occurring last is read as
the decimal separator with the other discarded; and the amount
normalization rules re-render parsed amounts with exactly two decimal
digits. -/
theorem claim_C7_parse_decimal (s : String) :
    parse_decimal (.str "1.947,75") = some (1947.75 : ℚ) ∧
    parse_decimal (.str "1,947.75") = some (1947.75 : ℚ) ∧
    (s.toList.contains ',' = true → s.toList.contains '.' = true →
      parse_decimal (.str s) = lastSeparatorReading s) ∧
    (∀ inv p, p ∈ phase1_normalize inv →
      p.ruleId = "R-TOT-AMOUNT-NORM-001" ∨
        p.ruleId = "R-LINE-AMOUNT-NORM-001" →
      ∃ q, p.newValue = .str (formatQ2 q) ∧
        decimalsAfter (formatQ2 q) = 2) := by
  refine ⟨by decide, by decide, ?_, ?_⟩
  · intro hc hd
    have hcm : ',' ∈ s.toList := by simpa using hc
    have hdm : '.' ∈ s.toList := by simpa using hd
    have hcs : ',' ∈ (pyStrip s).toList := mem_pyStrip s (by decide) hcm
    have hds : '.' ∈ (pyStrip s).toList := mem_pyStrip s (by decide) hdm
    have hne : ¬ (pyStrip s = "") := by
      intro h
      rw [h] at hcs
      simp at hcs
    have hck : ',' ∈ (pyStrip s).toList.filter
        (fun c => c.isDigit || c = ',' || c = '.' || c = '-') :=
      List.mem_filter.2 ⟨hcs, by decide⟩
    have hdk : '.' ∈ (pyStrip s).toList.filter
        (fun c => c.isDigit || c = ',' || c = '.' || c = '-') :=
      List.mem_filter.2 ⟨hds, by decide⟩
    unfold parse_decimal lastSeparatorReading
    simp only []
    rw [if_neg hne]
    have hmk : (String.mk ((pyStrip s).toList.filter
        (fun c => c.isDigit || c = ',' || c = '.' || c = '-'))).toList =
        (pyStrip s).toList.filter
          (fun c => c.isDigit || c = ',' || c = '.' || c = '-') := rfl
    have hcond : ((String.mk ((pyStrip s).toList.filter
        (fun c => c.isDigit || c = ',' || c = '.' || c = '-'))).toList.contains ',' &&
        (String.mk ((pyStrip s).toList.filter
        (fun c => c.isDigit || c = ',' || c = '.' || c = '-'))).toList.contains '.') = true := by
      rw [hmk, Bool.and_eq_true]
      exact ⟨by simpa using hck, by simpa using hdk⟩
    rw [if_pos hcond]
    by_cases hlast :
        lastIdx (String.mk ((pyStrip s).toList.filter
          (fun c => c.isDigit || c = ',' || c = '.' || c = '-'))) ',' >
        lastIdx (String.mk ((pyStrip s).toList.filter
          (fun c => c.isDigit || c = ',' || c = '.' || c = '-'))) '.'
    · rw [if_pos hlast, if_pos hlast]
      simp only [Char.reduceEq, reduceIte]
      rw [pyReplace_del _ '.', pyReplace_subst _ ',' '.']
      rfl
    · rw [if_neg hlast, if_neg hlast]
      simp only [Char.reduceEq, reduceIte]
      rw [pyReplace_del _ ',']
      have hid : ∀ l : List Char,
          l.map (fun c => if c = '.' then '.' else c) = l := by
        intro l
        induction l with
        | nil => rfl
        | cons x xs ih =>
          simp only [List.map, ih]
          congr 1
          split <;> simp_all
      rw [hid]
      rfl
  · intro inv p hp hr
    have h2 := formatQ2_two_decimals
    rcases List.mem_append.1 hp with hp | hp
    rcases List.mem_append.1 hp with hp | hp
    rcases List.mem_append.1 hp with hp | hp
    rcases List.mem_append.1 hp with hp | hp
    rcases List.mem_append.1 hp with hp | hp
    rcases List.mem_append.1 hp with hp | hp
    rcases List.mem_append.1 hp with hp | hp
    · have := p1DateBlock_ruleId inv p hp
      rcases hr with hr | hr <;> simp_all
    · have := p1VatBlock_ruleId inv p hp
      rcases hr with hr | hr <;> simp_all
    · have := p1RegBlock_ruleId inv p hp
      rcases hr with hr | hr <;> simp_all
    · have := p1EmailBlock_ruleId inv p hp
      rcases hr with hr | hr <;> simp_all
    · have := p1TaxRegBlock_ruleId inv p hp
      rcases hr with hr | hr <;> simp_all
    · have := p1CountryBlock_ruleId inv p hp
      rcases hr with hr | hr <;> simp_all
    · obtain ⟨q, hq⟩ := p1TotalsBlock_shape inv p hp
      exact ⟨q, hq, h2 q⟩
    · obtain ⟨q, hq⟩ := p1LineBlock_shape inv p hp
      exact ⟨q, hq, h2 q⟩

theorem claim_C7_parse_decimal_witness :
    ("1.947,75".toList.contains ',' = true) ∧
    ("1.947,75".toList.contains '.' = true) ∧
    parse_decimal (.str "1.947,75") = lastSeparatorReading "1.947,75" ∧
    lastSeparatorReading "1.947,75" = some (1947.75 : ℚ) :=
  ⟨by decide, by decide,
   (claim_C7_parse_decimal "1.947,75").2.2.1 (by decide) (by decide),
   by decide⟩

theorem p3NetTotalBlock_bt (inv : CanonicalInvoice) (p : Patch)
    (hp : p ∈ p3NetTotalBlock inv) : p.bt = "BT-109" := by
  unfold p3NetTotalBlock at hp
  iterate 8 (all_goals ((try simp only [] at hp) ; (try split at hp)))
  all_goals simp_all [make_patch]

theorem p3GrossBlock_bt (inv : CanonicalInvoice) (p : Patch)
    (hp : p ∈ p3GrossBlock inv) : p.bt = "BT-112" := by
  unfold p3GrossBlock at hp
  iterate 8 (all_goals ((try simp only [] at hp) ; (try split at hp)))
  all_goals simp_all [make_patch]

theorem p3DueBlock_bt (inv : CanonicalInvoice) (p : Patch)
    (hp : p ∈ p3DueBlock inv) : p.bt = "BT-115" := by
  unfold p3DueBlock at hp
  iterate 8 (all_goals ((try simp only [] at hp) ; (try split at hp)))
  all_goals simp_all [make_patch]

theorem p3TaxableBlock_bt (inv : CanonicalInvoice) (p : Patch)
    (hp : p ∈ p3TaxableBlock inv) : p.bt = "BT-116" := by
  unfold p3TaxableBlock at hp
  iterate 8 (all_goals ((try simp only [] at hp) ; (try split at hp)))
  all_goals simp_all [make_patch]

/-- Invoice on which claim C5's literal condition holds (stored 1.029 vs
raw line sum 1.008, difference 0.021 > 0.02) but the code, comparing
against the 2-decimal-rounded sum 1.01 (difference 0.019), emits nothing. -/
def c5BadInvoice : CanonicalInvoice :=
  { header := [],
    lines := [⟨1, [("BT-131", mkRec "BT-131" (.str "1.008") "ok")]⟩],
    totals := [("BT-106", mkRec "BT-106" (.str "1.029") "ok")],
    raw := ⟨"", []⟩, patches := [] }

theorem claim_C5_counterexample :
    parseOfRecord (alget c5BadInvoice.totals "BT-106") = some (1.029 : ℚ) ∧
    lineNets c5BadInvoice = [(1.008 : ℚ)] ∧
    |(1.029 : ℚ) - 1.008| > TOLERANCE ∧
    phase3_validate c5BadInvoice = [] := by
  refine ⟨by decide, by decide, by decide, by decide⟩

/-- Claim C5 (amended): with at least one parsed line net amount and a
parseable stored net-sum total, validation emits the `wrong_math` patch
overwriting BT-106 with the rounded line sum exactly when the stored value
deviates from the line sum rounded to two decimals by more than 0.02;
within that tolerance BT-106 is left untouched. -/
theorem claim_C5_validation (inv : CanonicalInvoice) (stored : ℚ)
    (h1 : lineNets inv ≠ [])
    (h2 : parseOfRecord (alget inv.totals "BT-106") = some stored) :
    (|stored - pyRound2 (lineNets inv).sum| > TOLERANCE →
      make_patch "totals" "BT-106"
          (.str (formatQ2 (pyRound2 (lineNets inv).sum))) "wrong_math" "rule"
          "Sum of line net amounts (BT-131)" "R-TOT-CHECK-004" ∈
        phase3_validate inv) ∧
    (|stored - pyRound2 (lineNets inv).sum| ≤ TOLERANCE →
      ∀ p ∈ phase3_validate inv, p.bt ≠ "BT-106") := by
  have halg : ∃ r, alget inv.totals "BT-106" = some r := by
    cases halg : alget inv.totals "BT-106" with
    | none => simp [parseOfRecord, halg] at h2
    | some r => exact ⟨r, rfl⟩
  obtain ⟨r, hr⟩ := halg
  constructor
  · intro h3
    have hblock : make_patch "totals" "BT-106"
        (.str (formatQ2 (pyRound2 (lineNets inv).sum))) "wrong_math" "rule"
        "Sum of line net amounts (BT-131)" "R-TOT-CHECK-004" ∈
        p3LineSumBlock inv := by
      unfold p3LineSumBlock
      simp only [h2]
      rw [if_pos h1]
      rw [if_pos h3]
      simp only [hr]
      simp
    unfold phase3_validate
    exact List.mem_append.2 (Or.inl (List.mem_append.2 (Or.inl
      (List.mem_append.2 (Or.inl (List.mem_append.2 (Or.inl hblock)))))))
  · intro h3 p hp
    unfold phase3_validate at hp
    rcases List.mem_append.1 hp with hp | hp
    rcases List.mem_append.1 hp with hp | hp
    rcases List.mem_append.1 hp with hp | hp
    rcases List.mem_append.1 hp with hp | hp
    · exfalso
      unfold p3LineSumBlock at hp
      simp only [h2] at hp
      rw [if_pos h1] at hp
      rw [if_neg (not_lt.2 h3)] at hp
      simp at hp
    · rw [p3NetTotalBlock_bt inv p hp]; decide
    · rw [p3GrossBlock_bt inv p hp]; decide
    · rw [p3DueBlock_bt inv p hp]; decide
    · rw [p3TaxableBlock_bt inv p hp]; decide

/-- The spec's worked example (stored 200.00 against a line sum of
150.00). -/
def c5WitnessInvoice : CanonicalInvoice :=
  { header := [],
    lines := [⟨1, [("BT-131", mkRec "BT-131" (.str "100.00") "ok")]⟩,
              ⟨2, [("BT-131", mkRec "BT-131" (.str "50.00") "ok")]⟩],
    totals := [("BT-106", mkRec "BT-106" (.str "200.00") "ok")],
    raw := ⟨"", []⟩, patches := [] }

theorem claim_C5_validation_witness :
    make_patch "totals" "BT-106" (.str "150.00") "wrong_math" "rule"
        "Sum of line net amounts (BT-131)" "R-TOT-CHECK-004" ∈
      phase3_validate c5WitnessInvoice := by
  have h := (claim_C5_validation c5WitnessInvoice 200 (by decide)
    (by decide)).1 (by decide)
  have he : formatQ2 (pyRound2 (lineNets c5WitnessInvoice).sum) = "150.00" := by
    decide
  rw [he] at h
  exact h

/-! Claim C4: derivation-phase targeting. -/

/-- The patch's target field currently holds an empty value: for header and
totals scope the scope dict holds a record with a non-truthy value under the
patch's code; for line scope some line whose id matches the patch's line id
holds such a record under the code. -/
def targetEmptyB (inv : CanonicalInvoice) (p : Patch) : Bool :=
  if p.scope = "header" then existsEmpty (alget inv.header p.bt)
  else if p.scope = "totals" then existsEmpty (alget inv.totals p.bt)
  else inv.lines.any (fun l =>
    lineIdEq l.lineId p.lineId && existsEmpty (alget l.bt p.bt))

theorem p2LineIdBlock_empty (inv : CanonicalInvoice) (p : Patch)
    (hp : p ∈ p2LineIdBlock inv) : targetEmptyB inv p = true := by
  unfold p2LineIdBlock at hp
  rw [List.mem_flatMap] at hp
  obtain ⟨line, hline, hp⟩ := hp
  iterate 6 (all_goals ((try simp only [] at hp) ; (try split at hp)))
  all_goals simp_all [targetEmptyB, make_patch]
  all_goals refine ⟨line, hline, by simp [lineIdEq], ?_⟩
  all_goals simp_all [existsEmpty]

theorem p2BuyerBlock_empty (inv : CanonicalInvoice) (p : Patch)
    (hp : p ∈ p2BuyerBlock inv) : targetEmptyB inv p = true := by
  unfold p2BuyerBlock at hp
  iterate 8 (all_goals ((try simp only [] at hp) ; (try rcases List.mem_append.1 hp with hp | hp) ; (try split at hp)))
  all_goals simp_all [targetEmptyB, make_patch]

theorem p2SellerBlock_empty (inv : CanonicalInvoice) (p : Patch)
    (hp : p ∈ p2SellerBlock inv) : targetEmptyB inv p = true := by
  unfold p2SellerBlock at hp
  iterate 8 (all_goals ((try simp only [] at hp) ; (try rcases List.mem_append.1 hp with hp | hp) ; (try split at hp)))
  all_goals simp_all [targetEmptyB, make_patch]

theorem p2TaxRepBlock_empty (inv : CanonicalInvoice) (p : Patch)
    (hp : p ∈ p2TaxRepBlock inv) : targetEmptyB inv p = true := by
  unfold p2TaxRepBlock at hp
  iterate 8 (all_goals ((try simp only [] at hp) ; (try split at hp)))
  all_goals simp_all [targetEmptyB, make_patch]

theorem p2DeliveryBlock_empty (inv : CanonicalInvoice) (p : Patch)
    (hp : p ∈ p2DeliveryBlock inv) : targetEmptyB inv p = true := by
  unfold p2DeliveryBlock at hp
  iterate 8 (all_goals ((try simp only [] at hp) ; (try rcases List.mem_append.1 hp with hp | hp) ; (try split at hp)))
  all_goals simp_all [targetEmptyB, make_patch]

theorem p2SkontoBlock_empty (inv : CanonicalInvoice) (p : Patch)
    (hp : p ∈ p2SkontoBlock inv) : targetEmptyB inv p = true := by
  unfold p2SkontoBlock at hp
  iterate 10 (all_goals ((try simp only [] at hp) ; (try rcases List.mem_append.1 hp with hp | hp) ; (try split at hp)))
  all_goals simp_all [targetEmptyB, make_patch]

theorem p2VatCatBlock_empty (inv : CanonicalInvoice) (p : Patch)
    (hp : p ∈ p2VatCatBlock inv) : targetEmptyB inv p = true := by
  unfold p2VatCatBlock at hp
  rw [List.mem_flatMap] at hp
  obtain ⟨line, hline, hp⟩ := hp
  iterate 6 (all_goals ((try simp only [] at hp) ; (try split at hp)))
  all_goals simp_all [targetEmptyB, make_patch]
  all_goals refine ⟨line, hline, by simp [lineIdEq], ?_⟩
  all_goals simp_all [existsEmpty]

theorem p2LineNetBlock_empty (inv : CanonicalInvoice) (p : Patch)
    (hp : p ∈ p2LineNetBlock inv) : targetEmptyB inv p = true := by
  unfold p2LineNetBlock at hp
  rw [List.mem_flatMap] at hp
  obtain ⟨line, hline, hp⟩ := hp
  iterate 6 (all_goals ((try simp only [] at hp) ; (try split at hp)))
  all_goals simp_all [targetEmptyB, make_patch]
  all_goals refine ⟨line, hline, by simp [lineIdEq], ?_⟩
  all_goals simp_all [existsEmpty]

theorem p2SumBlock_empty (inv : CanonicalInvoice) (p : Patch)
    (hp : p ∈ p2SumBlock inv) : targetEmptyB inv p = true := by
  unfold p2SumBlock at hp
  iterate 8 (all_goals ((try simp only [] at hp) ; (try split at hp)))
  all_goals simp_all [targetEmptyB, make_patch]

theorem p2ChargeSumBlock_empty (inv : CanonicalInvoice) (p : Patch)
    (hp : p ∈ p2ChargeSumBlock inv) : targetEmptyB inv p = true := by
  unfold p2ChargeSumBlock at hp
  iterate 8 (all_goals ((try simp only [] at hp) ; (try split at hp)))
  all_goals simp_all [targetEmptyB, make_patch]

theorem p2AllowSumBlock_empty (inv : CanonicalInvoice) (p : Patch)
    (hp : p ∈ p2AllowSumBlock inv) : targetEmptyB inv p = true := by
  unfold p2AllowSumBlock at hp
  iterate 8 (all_goals ((try simp only [] at hp) ; (try split at hp)))
  all_goals simp_all [targetEmptyB, make_patch]

theorem p2GrandABlock_empty (inv : CanonicalInvoice) (p : Patch)
    (hp : p ∈ p2GrandABlock inv) : targetEmptyB inv p = true := by
  unfold p2GrandABlock at hp
  iterate 8 (all_goals ((try simp only [] at hp) ; (try split at hp)))
  all_goals simp_all [targetEmptyB, make_patch]

theorem p2GrandBBlock_empty (inv : CanonicalInvoice) (p : Patch)
    (hp : p ∈ p2GrandBBlock inv) : targetEmptyB inv p = true := by
  unfold p2GrandBBlock at hp
  iterate 8 (all_goals ((try simp only [] at hp) ; (try split at hp)))
  all_goals simp_all [targetEmptyB, make_patch]

theorem p2GrandCBlock_empty (inv : CanonicalInvoice) (p : Patch)
    (hp : p ∈ p2GrandCBlock inv) : targetEmptyB inv p = true := by
  unfold p2GrandCBlock at hp
  iterate 8 (all_goals ((try simp only [] at hp) ; (try split at hp)))
  all_goals simp_all [targetEmptyB, make_patch]

theorem p2GrandDBlock_empty (inv : CanonicalInvoice) (p : Patch)
    (hp : p ∈ p2GrandDBlock inv) : targetEmptyB inv p = true := by
  unfold p2GrandDBlock at hp
  iterate 8 (all_goals ((try simp only [] at hp) ; (try split at hp)))
  all_goals simp_all [targetEmptyB, make_patch]

theorem p2VatFromRateBlock_empty (inv : CanonicalInvoice) (p : Patch)
    (hp : p ∈ p2VatFromRateBlock inv) : targetEmptyB inv p = true := by
  unfold p2VatFromRateBlock at hp
  iterate 8 (all_goals ((try simp only [] at hp) ; (try split at hp)))
  all_goals simp_all [targetEmptyB, make_patch]

theorem p2TaxableBlock_empty (inv : CanonicalInvoice) (p : Patch)
    (hp : p ∈ p2TaxableBlock inv) : targetEmptyB inv p = true := by
  unfold p2TaxableBlock at hp
  iterate 8 (all_goals ((try simp only [] at hp) ; (try split at hp)))
  all_goals simp_all [targetEmptyB, make_patch]

theorem p2CurrencyDedupBlock_target (inv : CanonicalInvoice) (p : Patch)
    (hp : p ∈ p2CurrencyDedupBlock inv) :
    p.ruleId = "R-HDR-CURRENCY-DEDUP-001" ∧
      existsTruthy (alget inv.header p.bt) = true := by
  unfold p2CurrencyDedupBlock at hp
  iterate 8 (all_goals ((try simp only [] at hp) ; (try split at hp)))
  all_goals simp_all [make_patch, existsTruthy, PyVal.truthy]

theorem p2DateDedupBlock_target (inv : CanonicalInvoice) (p : Patch)
    (hp : p ∈ p2DateDedupBlock inv) :
    p.ruleId = "R-HDR-DATE-DEDUP-001" ∧
      existsTruthy (alget inv.header p.bt) = true := by
  unfold p2DateDedupBlock at hp
  iterate 8 (all_goals ((try simp only [] at hp) ; (try split at hp)))
  all_goals simp_all [make_patch, existsTruthy, PyVal.truthy]

/-- An invoice whose only populated field is a currency header with a doubled
token, `BT-5 = "EUR EUR"`. -/
def c4DedupInvoice : CanonicalInvoice :=
  { header := [("BT-5", mkRec "BT-5" (.str "EUR EUR") "ok")], lines := [],
    totals := [], raw := ⟨"", []⟩, patches := [] }

/-- The currency-dedup patch `phase2_derive` emits for `c4DedupInvoice`. -/
def c4DedupPatch : Patch :=
  make_patch "header" "BT-5" (.str "EUR") "corrected" "rule"
    "Removed duplicate currency token" "R-HDR-CURRENCY-DEDUP-001"
    Option.none Option.none

/-- Claim C4 counterexample: on an invoice whose currency header holds the
present (non-empty) value `"EUR EUR"`, the derivation phase emits exactly
one patch — the currency-dedup patch — and that patch targets a field whose
current value is present, not empty; so the derivation phase does propose
overwriting a present value. -/
theorem claim_C4_counterexample :
    phase2_derive c4DedupInvoice = [c4DedupPatch] ∧
    targetEmptyB c4DedupInvoice c4DedupPatch = false ∧
    existsTruthy (alget c4DedupInvoice.header c4DedupPatch.bt) = true := by
  decide

/-- Claim C4 (amended): every patch the derivation phase emits either
targets a field whose current value is empty, or is one of the two
duplicate-token cleanup rules for the currency and delivery-date headers
(`R-HDR-CURRENCY-DEDUP-001`, `R-HDR-DATE-DEDUP-001`), which by design
rewrite a present header value. -/
theorem claim_C4_derivation (inv : CanonicalInvoice) (p : Patch)
    (hp : p ∈ phase2_derive inv) :
    targetEmptyB inv p = true ∨
    ((p.ruleId = "R-HDR-CURRENCY-DEDUP-001" ∨
        p.ruleId = "R-HDR-DATE-DEDUP-001") ∧
      existsTruthy (alget inv.header p.bt) = true) := by
  unfold phase2_derive at hp
  iterate 19 (all_goals (try rcases List.mem_append.1 hp with hp | hp))
  all_goals first
    | exact Or.inl (p2LineIdBlock_empty inv p hp)
    | exact Or.inl (p2BuyerBlock_empty inv p hp)
    | exact Or.inl (p2SellerBlock_empty inv p hp)
    | exact Or.inl (p2TaxRepBlock_empty inv p hp)
    | exact Or.inl (p2DeliveryBlock_empty inv p hp)
    | exact Or.inl (p2SkontoBlock_empty inv p hp)
    | exact Or.inl (p2VatCatBlock_empty inv p hp)
    | exact Or.inl (p2LineNetBlock_empty inv p hp)
    | exact Or.inl (p2SumBlock_empty inv p hp)
    | exact Or.inl (p2ChargeSumBlock_empty inv p hp)
    | exact Or.inl (p2AllowSumBlock_empty inv p hp)
    | exact Or.inr ⟨Or.inl (p2CurrencyDedupBlock_target inv p hp).1,
        (p2CurrencyDedupBlock_target inv p hp).2⟩
    | exact Or.inr ⟨Or.inr (p2DateDedupBlock_target inv p hp).1,
        (p2DateDedupBlock_target inv p hp).2⟩
    | exact Or.inl (p2GrandABlock_empty inv p hp)
    | exact Or.inl (p2GrandBBlock_empty inv p hp)
    | exact Or.inl (p2GrandCBlock_empty inv p hp)
    | exact Or.inl (p2GrandDBlock_empty inv p hp)
    | exact Or.inl (p2VatFromRateBlock_empty inv p hp)
    | exact Or.inl (p2TaxableBlock_empty inv p hp)

/-- An invoice with a single line whose identifier field is empty. -/
def c4WitnessInvoice : CanonicalInvoice :=
  { header := [], lines := [⟨1, [("BT-126", empty_btvalue "BT-126")]⟩],
    totals := [], raw := ⟨"", []⟩, patches := [] }

/-- The line-id patch `phase2_derive` emits for `c4WitnessInvoice`. -/
def c4WitnessPatch : Patch :=
  make_patch "line" "BT-126" (.str "1") "derived" "derived"
    "Assigned line number as identifier" "R-LINE-ID-001" (some 1)
    (some [("from", .str "line_index"), ("line_id", .num 1)])

theorem claim_C4_derivation_witness :
    c4WitnessPatch ∈ phase2_derive c4WitnessInvoice ∧
    (targetEmptyB c4WitnessInvoice c4WitnessPatch = true ∨
    ((c4WitnessPatch.ruleId = "R-HDR-CURRENCY-DEDUP-001" ∨
        c4WitnessPatch.ruleId = "R-HDR-DATE-DEDUP-001") ∧
      existsTruthy (alget c4WitnessInvoice.header c4WitnessPatch.bt) = true)) :=
  ⟨by decide, claim_C4_derivation c4WitnessInvoice c4WitnessPatch (by decide)⟩

/-! Claim C6: phase-4 Skonto extraction. -/

/-- An invoice with instant payment detected (`BT-81 = "Vorkasse"`), payment
terms containing both a percentage-Skonto phrase and a parenthesised amount
(`BT-20 = "2% Skonto (10 EUR)"`), a known total with VAT, and empty
allowance-percentage (`BT-94`) and allowance-amount (`BT-92`) totals. -/
def c6Invoice : CanonicalInvoice :=
  { header := [("BT-20", mkRec "BT-20" (.str "2% Skonto (10 EUR)") "ok"),
               ("BT-81", mkRec "BT-81" (.str "Vorkasse") "ok")],
    lines := [],
    totals := [("BT-112", mkRec "BT-112" (.str "100.00") "ok"),
               ("BT-94", empty_btvalue "BT-94"),
               ("BT-92", empty_btvalue "BT-92")],
    raw := ⟨"", []⟩, patches := [] }

/-- Claim C6: on `c6Invoice` instant payment is detected, the payment-terms
text does contain the phrase `2% skonto` and the amount `(10 EUR)` — the
phase-2 scanners (whose regexes are written with single backslashes)
extract `"2"` and `"10"` from it — the allowance totals are empty, and yet
the resolution phase emits no patch at all: its own percent and amount
matchers, transcribed from regexes whose raw strings double every
backslash, fail on the text, so neither `BT-94` nor `BT-92` is set. -/
theorem claim_C6_skonto :
    existsTruthy (alget c6Invoice.header "BT-81") = true ∧
    anyInstantToken "Vorkasse" = true ∧
    skontoPercentSearch ("2% Skonto (10 EUR)").toList = some "2" ∧
    skontoAmountSearch ("2% Skonto (10 EUR)").toList = some "10" ∧
    brokenSkontoPercentSearch ("2% Skonto (10 EUR)").toList = Option.none ∧
    brokenSkontoAmountSearch ("2% Skonto (10 EUR)").toList = Option.none ∧
    existsEmpty (alget c6Invoice.totals "BT-94") = true ∧
    existsEmpty (alget c6Invoice.totals "BT-92") = true ∧
    phase4_resolve testToday c6Invoice = [] := by
  decide

/-! Claim C9: the status/value invariant. -/

/-- The spec's record invariant: `status = "missing"` exactly when the
record's value is empty (`None` or `""`). -/
def recordInvariant (r : BTValue) : Bool :=
  decide ((r.status = "missing") ↔ r.value.notNoneOrEmpty = false)

/-- Every record of a scope dict satisfies the record invariant. -/
def mapInv (m : BTMap) : Bool := m.all (fun e => recordInvariant e.2)

/-- Every record of the invoice satisfies the record invariant. -/
def invariantB (inv : CanonicalInvoice) : Bool :=
  mapInv inv.header && mapInv inv.totals &&
    inv.lines.all (fun l => mapInv l.bt)

/-- A patch that respects the invariant: it carries status `"missing"`
exactly when its new value is empty. -/
def patchOk (p : Patch) : Bool :=
  decide ((p.status = "missing") ↔ p.newValue.notNoneOrEmpty = false)

theorem foldl_inv_prop {α : Type} {β : Type} (P : α → Prop) (f : α → β → α)
    (hf : ∀ a b, P a → P (f a b)) :
    ∀ (l : List β) (a : α), P a → P (l.foldl f a) := by
  intro l
  induction l with
  | nil => intro a h; exact h
  | cons b bs ih => intro a h; exact ih _ (hf a b h)

theorem all_alset (P : BTValue → Bool) (m : BTMap) (k : String) (v : BTValue)
    (hm : m.all (fun e => P e.2) = true) (hv : P v = true) :
    (alset m k v).all (fun e => P e.2) = true := by
  induction m with
  | nil => simp [alset]
  | cons e es ih =>
    simp only [List.all_cons, Bool.and_eq_true] at hm
    simp only [alset]
    split
    · simp [List.all_cons, hv, hm.2]
    · simp [List.all_cons, hm.1, ih hm.2]

theorem mapInv_alset (m : BTMap) (k : String) (v : BTValue)
    (hm : mapInv m = true) (hv : recordInvariant v = true) :
    mapInv (alset m k v) = true :=
  all_alset recordInvariant m k v hm hv

theorem all_updateLineBT (lines : List CanonicalLine) (lineId : Option ℤ)
    (bt : String) (r : BTValue)
    (hl : lines.all (fun l => mapInv l.bt) = true)
    (hv : recordInvariant r = true) :
    (updateLineBT lines lineId bt r).all (fun l => mapInv l.bt) = true := by
  induction lines with
  | nil => simp [updateLineBT]
  | cons line rest ih =>
    simp only [List.all_cons, Bool.and_eq_true] at hl
    simp only [updateLineBT]
    split
    · simp only [List.all_cons, Bool.and_eq_true]
      exact ⟨mapInv_alset _ _ _ hl.1 hv, hl.2⟩
    · simp only [List.all_cons, Bool.and_eq_true]
      exact ⟨hl.1, ih hl.2⟩

theorem recordInvariant_patched (r : BTValue) (p : Patch)
    (hp : patchOk p = true) : recordInvariant (patchedRecord r p) = true := by
  simp only [patchOk, decide_eq_true_eq] at hp
  simp only [recordInvariant, patchedRecord, decide_eq_true_eq]
  exact hp

theorem apply_patch_invariant (inv : CanonicalInvoice) (p : Patch)
    (h : invariantB inv = true) (hp : patchOk p = true) :
    invariantB (apply_patch inv p) = true := by
  simp only [invariantB, Bool.and_eq_true] at h
  obtain ⟨⟨hh, ht⟩, hlns⟩ := h
  unfold apply_patch
  split
  · simp only [invariantB, Bool.and_eq_true]; exact ⟨⟨hh, ht⟩, hlns⟩
  · rename_i record hres
    simp only []
    split
    · simp only [invariantB, Bool.and_eq_true]
      exact ⟨⟨mapInv_alset _ _ _ hh (recordInvariant_patched record p hp), ht⟩,
        hlns⟩
    · split
      · simp only [invariantB, Bool.and_eq_true]
        exact ⟨⟨hh, mapInv_alset _ _ _ ht (recordInvariant_patched record p hp)⟩,
          hlns⟩
      · simp only [invariantB, Bool.and_eq_true]
        exact ⟨⟨hh, ht⟩,
          all_updateLineBT _ _ _ _ hlns (recordInvariant_patched record p hp)⟩

/-- A one-field invoice that satisfies the record invariant. -/
def c9BaseInvoice : CanonicalInvoice :=
  { header := [("BT-1", mkRec "BT-1" (.str "INV-7") "ok")], lines := [],
    totals := [], raw := ⟨"", []⟩, patches := [] }

/-- A patch carrying a non-`"missing"` status together with an empty value. -/
def c9BadPatch : Patch :=
  make_patch "header" "BT-1" (.str "") "corrected" "rule"
    "cleared by rule" "R-HDR-X-001" Option.none Option.none

/-- Claim C9 counterexample: `apply_patch` never checks the status/value
invariant — applying a patch whose status is `"corrected"` but whose new
value is empty to an invoice satisfying the invariant yields an invoice
violating it. -/
theorem claim_C9_counterexample :
    invariantB c9BaseInvoice = true ∧ patchOk c9BadPatch = false ∧
    invariantB (apply_patch c9BaseInvoice c9BadPatch) = false := by
  decide

/-- Invariant on a header/totals pair of scope dicts. -/
def pairInv (ht : BTMap × BTMap) : Prop :=
  mapInv ht.1 = true ∧ mapInv ht.2 = true

theorem recordInvariant_empty (bt : String) :
    recordInvariant (empty_btvalue bt) = true := by
  simp [recordInvariant, empty_btvalue, PyVal.notNoneOrEmpty]

theorem recordInvariant_lfu_ok (f : AzureField) (v raw : PyVal)
    (path : String) (r : BTValue) (hv : v.notNoneOrEmpty = true) :
    recordInvariant (loaderFieldUpdate f v raw "ok" path r) = true := by
  simp [loaderFieldUpdate, recordInvariant, hv]

theorem recordInvariant_lfu_missing (f : AzureField) (v raw : PyVal)
    (path : String) (r : BTValue) (hv : v.notNoneOrEmpty = false) :
    recordInvariant (loaderFieldUpdate f v raw "missing" path r) = true := by
  simp [loaderFieldUpdate, recordInvariant, hv]

theorem recordInvariant_loaderJoinUpdate (joined path : String) (r : BTValue)
    (h : joined ≠ "") :
    recordInvariant (loaderJoinUpdate joined path r) = true := by
  simp [loaderJoinUpdate, recordInvariant, PyVal.notNoneOrEmpty, h]

theorem applyHeaderField_inv (acc : BTMap × BTMap) (kv : String × AzureField)
    (h : pairInv acc) : pairInv (applyHeaderField acc kv) := by
  unfold applyHeaderField
  iterate 6 (all_goals ((try simp only []) ; (try split)))
  all_goals
    first
    | exact h
    | exact ⟨mapInv_alset _ _ _ h.1 (recordInvariant_lfu_ok _ _ _ _ _ (by simp_all)), h.2⟩
    | exact ⟨mapInv_alset _ _ _ h.1 (recordInvariant_lfu_missing _ _ _ _ _ (by simp_all)), h.2⟩
    | exact ⟨h.1, mapInv_alset _ _ _ h.2 (recordInvariant_lfu_ok _ _ _ _ _ (by simp_all))⟩
    | exact ⟨h.1, mapInv_alset _ _ _ h.2 (recordInvariant_lfu_missing _ _ _ _ _ (by simp_all))⟩

theorem applyLineField_inv (idx : ℕ) (store : BTMap)
    (kv : String × AzureField) (h : mapInv store = true) :
    mapInv (applyLineField idx store kv) = true := by
  unfold applyLineField
  iterate 5 (all_goals ((try simp only []) ; (try split)))
  all_goals
    first
    | exact h
    | exact mapInv_alset _ _ _ h (recordInvariant_lfu_ok _ _ _ _ _ (by simp_all))
    | exact mapInv_alset _ _ _ h (recordInvariant_lfu_missing _ _ _ _ _ (by simp_all))

theorem applyArrayItemField_inv (pathRoot : String) (idx : ℕ)
    (acc : BTMap × BTMap) (kv : String × AzureField) (h : pairInv acc) :
    pairInv (applyArrayItemField pathRoot idx acc kv) := by
  unfold applyArrayItemField
  iterate 6 (all_goals ((try simp only []) ; (try split)))
  all_goals
    first
    | exact h
    | exact ⟨mapInv_alset _ _ _ h.1 (recordInvariant_lfu_ok _ _ _ _ _ (by simp_all)), h.2⟩
    | exact ⟨mapInv_alset _ _ _ h.1 (recordInvariant_lfu_missing _ _ _ _ _ (by simp_all)), h.2⟩
    | exact ⟨h.1, mapInv_alset _ _ _ h.2 (recordInvariant_lfu_ok _ _ _ _ _ (by simp_all))⟩
    | exact ⟨h.1, mapInv_alset _ _ _ h.2 (recordInvariant_lfu_missing _ _ _ _ _ (by simp_all))⟩

theorem applyArrayField_inv (pathRoot : String)
    (items : List (List (String × AzureField))) (acc : BTMap × BTMap)
    (h : pairInv acc) : pairInv (applyArrayField pathRoot items acc) := by
  unfold applyArrayField
  refine foldl_inv_prop pairInv _ ?_ _ _ h
  intro a b ha
  exact foldl_inv_prop pairInv _ (fun a2 b2 ha2 =>
    applyArrayItemField_inv pathRoot b.1 a2 b2 ha2) _ _ ha

theorem applyJoined_inv (bt joined path : String) (acc : BTMap × BTMap)
    (hj : joined ≠ "") (h : pairInv acc) :
    pairInv (applyJoined bt joined path acc) := by
  unfold applyJoined
  iterate 4 (all_goals ((try simp only []) ; (try split)))
  all_goals
    first
    | exact h
    | exact ⟨mapInv_alset _ _ _ h.1 (recordInvariant_loaderJoinUpdate _ _ _ hj), h.2⟩
    | exact ⟨h.1, mapInv_alset _ _ _ h.2 (recordInvariant_loaderJoinUpdate _ _ _ hj)⟩

theorem allowChargeStep_inv (idx : ℕ) (acc : BTMap × List ℚ × List ℚ)
    (kv : String × AzureField) (h : mapInv acc.1 = true) :
    mapInv (allowChargeStep idx acc kv).1 = true := by
  unfold allowChargeStep
  iterate 8 (all_goals ((try simp only []) ; (try split)))
  all_goals
    first
    | exact h
    | exact mapInv_alset _ _ _ h (recordInvariant_lfu_ok _ _ _ _ _ (by simp_all))
    | exact mapInv_alset _ _ _ h (recordInvariant_lfu_missing _ _ _ _ _ (by simp_all))

theorem taxesStep_inv (idx : ℕ) (acc : BTMap × List ℚ × List ℚ)
    (kv : String × AzureField) (h : mapInv acc.1 = true) :
    mapInv (taxesStep idx acc kv).1 = true := by
  unfold taxesStep
  iterate 8 (all_goals ((try simp only []) ; (try split)))
  all_goals
    first
    | exact h
    | exact mapInv_alset _ _ _ h (recordInvariant_lfu_ok _ _ _ _ _ (by simp_all))
    | exact mapInv_alset _ _ _ h (recordInvariant_lfu_missing _ _ _ _ _ (by simp_all))

theorem formatQ2_len (q : ℚ) : 0 < (formatQ2 q).length := by
  unfold formatQ2
  simp only []
  have h2 : ∀ n : ℕ, (twoDigits n).length = 2 := by
    intro n; rfl
  simp only [String.length_append, h2]
  omega

theorem formatQ2_ne_empty (q : ℚ) : formatQ2 q ≠ "" := by
  intro h
  have := formatQ2_len q
  rw [h] at this
  simp at this

theorem applyAmountSum_inv (bt : String) (amounts : List ℚ) (path : String)
    (totals : BTMap) (h : mapInv totals = true) :
    mapInv (applyAmountSum bt amounts path totals) = true := by
  unfold applyAmountSum
  iterate 4 (all_goals ((try simp only []) ; (try split)))
  all_goals
    first
    | exact h
    | exact mapInv_alset _ _ _ h
        (recordInvariant_loaderJoinUpdate _ _ _ (formatQ2_ne_empty _))

theorem strMk_ne_empty (l : List Char) (h : l ≠ []) : String.mk l ≠ "" := by
  intro hc
  apply h
  have hd := congrArg String.data hc
  simpa using hd

theorem wsSplitAux_ne_empty (l : List Char) :
    ∀ acc t, t ∈ wsSplitAux l acc → t ≠ "" := by
  induction l with
  | nil =>
    intro acc t ht
    simp only [wsSplitAux] at ht
    split at ht
    · simp at ht
    · rename_i hacc
      simp only [List.mem_singleton] at ht
      subst ht
      refine strMk_ne_empty _ ?_
      simp only [ne_eq, List.reverse_eq_nil_iff]
      intro hc
      subst hc
      simp at hacc
  | cons c cs ih =>
    intro acc t ht
    simp only [wsSplitAux] at ht
    split at ht
    · split at ht
      · exact ih _ _ ht
      · rename_i hacc
        rcases List.mem_cons.1 ht with h1 | h1
        · subst h1
          refine strMk_ne_empty _ ?_
          simp only [ne_eq, List.reverse_eq_nil_iff]
          intro hc
          subst hc
          simp at hacc
        · exact ih _ _ h1
    · exact ih _ _ ht

theorem pySplitWs_ne_empty (s : String) (t : String) (ht : t ∈ pySplitWs s) :
    t ≠ "" :=
  wsSplitAux_ne_empty s.toList [] t ht

theorem collectPaymentTexts_ne (items : List (List (String × AzureField))) :
    (∀ t ∈ (collectPaymentTexts items).1, t ≠ "") ∧
    (∀ t ∈ (collectPaymentTexts items).2, t ≠ "") := by
  unfold collectPaymentTexts
  refine foldl_inv_prop
    (fun acc : List String × List String =>
      (∀ t ∈ acc.1, t ≠ "") ∧ (∀ t ∈ acc.2, t ≠ "")) _ ?_ _ _
    (by simp)
  intro a item ha
  refine foldl_inv_prop
    (fun acc : List String × List String =>
      (∀ t ∈ acc.1, t ≠ "") ∧ (∀ t ∈ acc.2, t ≠ "")) _ ?_ _ _ ha
  intro acc kv hacc
  iterate 6 (all_goals ((try simp only []) ; (try split)))
  all_goals
    first
    | exact hacc
    | (constructor
       · intro t ht
         rcases List.mem_append.1 ht with h1 | h1
         · exact hacc.1 _ h1
         · simp only [List.mem_singleton] at h1
           subst h1
           simp_all
       · exact hacc.2)
    | (constructor
       · exact hacc.1
       · intro t ht
         rcases List.mem_append.1 ht with h1 | h1
         · exact hacc.2 _ h1
         · exact pySplitWs_ne_empty _ _ (List.mem_of_mem_filter h1))

theorem dedupFirstAux_sublist (l : List String) :
    ∀ seen t, t ∈ dedupFirstAux l seen → t ∈ l := by
  induction l with
  | nil => intro seen t ht; simp [dedupFirstAux] at ht
  | cons x xs ih =>
    intro seen t ht
    simp only [dedupFirstAux] at ht
    split at ht
    · exact List.mem_cons_of_mem _ (ih _ _ ht)
    · rcases List.mem_cons.1 ht with h1 | h1
      · subst h1; exact List.mem_cons_self _ _
      · exact List.mem_cons_of_mem _ (ih _ _ h1)

theorem intercalate_go_len (s : String) (as : List String) :
    ∀ acc : String, acc.length ≤ (String.intercalate.go acc s as).length := by
  induction as with
  | nil => intro acc; simp [String.intercalate.go]
  | cons a as ih =>
    intro acc
    have h1 : String.intercalate.go acc s (a :: as) =
        String.intercalate.go (acc ++ s ++ a) s as := by
      simp [String.intercalate.go]
    rw [h1]
    have h2 := ih (acc ++ s ++ a)
    have h3 : acc.length ≤ (acc ++ s ++ a).length := by
      simp only [String.length_append]
      omega
    omega

theorem strLen_pos_of_ne (s : String) (h : s ≠ "") : 0 < s.length := by
  cases s with
  | mk l =>
    cases l with
    | nil => simp at h
    | cons c cs => simp [String.length]

theorem intercalate_ne_empty (s : String) (l : List String)
    (hl : l ≠ []) (he : ∀ t ∈ l, t ≠ "") :
    String.intercalate s l ≠ "" := by
  match l with
  | [] => exact absurd rfl hl
  | a :: as =>
    have hgo : String.intercalate s (a :: as) = String.intercalate.go a s as := by
      simp [String.intercalate]
    intro hcontra
    have hlen := intercalate_go_len s as a
    rw [← hgo, hcontra] at hlen
    have hpos := strLen_pos_of_ne a (he a (List.mem_cons_self _ _))
    have h0 : ("" : String).length = 0 := rfl
    rw [h0] at hlen
    omega

theorem dedupFirst_joined_ne (sep : String) (l : List String)
    (hl : l ≠ []) (he : ∀ t ∈ l, t ≠ "") :
    String.intercalate sep (dedupFirst l) ≠ "" := by
  apply intercalate_ne_empty
  · match l with
    | [] => exact absurd rfl hl
    | x :: xs =>
      show dedupFirstAux (x :: xs) [] ≠ []
      simp only [dedupFirstAux]
      split
      · rename_i hcc
        exact absurd hcc (by simp [List.contains])
      · simp
  · intro t ht
    exact he t (dedupFirstAux_sublist l [] t ht)

theorem mapInv_filterMap_empty (reg : Registry)
    (f : String × String → Option (String × BTValue))
    (hf : ∀ a e, f a = some e → recordInvariant e.2 = true) :
    mapInv (reg.filterMap f) = true := by
  apply List.all_eq_true.mpr
  intro e he
  rcases List.mem_filterMap.mp he with ⟨a, ha, hfa⟩
  exact hf a e hfa

theorem load_azure_invariant (input_data : AzureInput)
    (bt_registry : Registry) :
    invariantB (load_azure input_data bt_registry) = true := by
  unfold load_azure
  lift_lets
  extract_lets header0 totals0 fields ht1 items store0 lineList pd htPd ptexts ht84 ht2 acItems ht3 acRes totals4 chargeAms allowAms totals5 totals6 taxItems ht7 taxRes totals8 vatAms taxableAms totals9 totals10
  have hH0 : mapInv header0 = true := by
    unfold_let header0
    apply mapInv_filterMap_empty
    intro a e hfa
    split at hfa
    · simp only [Option.some.injEq] at hfa
      subst hfa
      exact recordInvariant_empty _
    · exact Option.noConfusion hfa
  have hT0 : mapInv totals0 = true := by
    unfold_let totals0
    apply mapInv_filterMap_empty
    intro a e hfa
    split at hfa
    · simp only [Option.some.injEq] at hfa
      subst hfa
      exact recordInvariant_empty _
    · exact Option.noConfusion hfa
  have h1 : pairInv ht1 :=
    foldl_inv_prop pairInv applyHeaderField applyHeaderField_inv fields
      (header0, totals0) ⟨hH0, hT0⟩
  have hPd : pairInv htPd := applyArrayField_inv _ _ _ h1
  have h84 : pairInv ht84 := by
    unfold_let ht84
    split
    · exact applyJoined_inv _ _ _ _
        (dedupFirst_joined_ne _ _ (by assumption) (collectPaymentTexts_ne _).1)
        hPd
    · exact hPd
  have h2 : pairInv ht2 := by
    unfold_let ht2
    split
    · split
      · exact applyJoined_inv _ _ _ _
          (dedupFirst_joined_ne _ _ (by assumption)
            (collectPaymentTexts_ne _).2)
          h84
      · exact h84
    · exact h1
  have h3 : pairInv ht3 := by
    unfold_let ht3
    split
    · exact applyArrayField_inv _ _ _ h2
    · exact h2
  have hAc : mapInv acRes.1 = true := by
    unfold_let acRes
    refine foldl_inv_prop (fun a : BTMap × List ℚ × List ℚ => mapInv a.1 = true) _ ?_ _ _ h3.2
    intro a b ha
    exact foldl_inv_prop (fun a2 : BTMap × List ℚ × List ℚ => mapInv a2.1 = true) _
      (fun a2 b2 ha2 => allowChargeStep_inv b.1 a2 b2 ha2) _ _ ha
  have h5 : mapInv totals5 = true := applyAmountSum_inv _ _ _ _ hAc
  have h6 : mapInv totals6 = true := applyAmountSum_inv _ _ _ _ h5
  have h7 : pairInv ht7 := by
    unfold_let ht7
    split
    · exact applyArrayField_inv _ _ _ ⟨h3.1, h6⟩
    · exact ⟨h3.1, h6⟩
  have hTax : mapInv taxRes.1 = true := by
    unfold_let taxRes
    refine foldl_inv_prop (fun a : BTMap × List ℚ × List ℚ => mapInv a.1 = true) _ ?_ _ _ h7.2
    intro a b ha
    exact foldl_inv_prop (fun a2 : BTMap × List ℚ × List ℚ => mapInv a2.1 = true) _
      (fun a2 b2 ha2 => taxesStep_inv b.1 a2 b2 ha2) _ _ ha
  have h9 : mapInv totals9 = true := applyAmountSum_inv _ _ _ _ hTax
  have h10 : mapInv totals10 = true := applyAmountSum_inv _ _ _ _ h9
  have hstore0 : mapInv store0 = true := by
    unfold_let store0
    apply mapInv_filterMap_empty
    intro a e hfa
    split at hfa
    · simp only [Option.some.injEq] at hfa
      subst hfa
      exact recordInvariant_empty _
    · exact Option.noConfusion hfa
  have hlines : lineList.all (fun l => mapInv l.bt) = true := by
    unfold_let lineList
    apply List.all_eq_true.mpr
    intro l hl
    rcases List.mem_map.mp hl with ⟨idxItem, hmem, hEq⟩
    subst hEq
    exact foldl_inv_prop (fun s : BTMap => mapInv s = true) _
      (fun s kv hs => applyLineField_inv _ s kv hs) _ _ hstore0
  simp only [invariantB, Bool.and_eq_true]
  exact ⟨⟨h7.1, h10⟩, hlines⟩

/-- Claim C9 (amended): after ingestion the invariant holds — for every
Azure input and registry, every record of the loaded invoice has status
`"missing"` exactly when its value is empty — and `apply_patch` preserves
the invariant for exactly those patches that themselves respect it
(status `"missing"` iff empty new value); an arbitrary patch application
need not preserve it (see the counterexample). -/
theorem claim_C9_invariant :
    (∀ (input_data : AzureInput) (bt_registry : Registry),
      invariantB (load_azure input_data bt_registry) = true) ∧
    (∀ (inv : CanonicalInvoice) (p : Patch), invariantB inv = true →
      patchOk p = true → invariantB (apply_patch inv p) = true) :=
  ⟨load_azure_invariant, apply_patch_invariant⟩

/-- A small registry covering the three scopes. -/
def c9Registry : Registry :=
  [("BT-1", "header"), ("BT-106", "totals"), ("BT-126", "line")]

/-- An Azure input with no documents. -/
def c9Input : AzureInput := ⟨"", []⟩

/-- A patch respecting the invariant: non-missing status, present value. -/
def c9GoodPatch : Patch :=
  make_patch "header" "BT-1" (.str "INV-8") "corrected" "rule"
    "normalized id" "R-HDR-ID-001" Option.none Option.none

theorem claim_C9_invariant_witness :
    invariantB (load_azure c9Input c9Registry) = true ∧
    invariantB (apply_patch c9BaseInvoice c9GoodPatch) = true :=
  ⟨claim_C9_invariant.1 c9Input c9Registry,
   claim_C9_invariant.2 c9BaseInvoice c9GoodPatch (by decide) (by decide)⟩

end LexInvo
